import Mathlib

/-!
Shallow embedding of the analytical core of `coincident-systems/sql-time-study`:
the result verifier (`compareResults` and its normalization helpers), the
analysis module (`analysis.ts`: successful-attempt extraction, log-log OLS
learning-curve fit, round summaries, task difficulty, SQL complexity
classification, overall statistics) and the grading engine (`gradeSession`
and its five criterion scorers).

Modelling conventions:
- JavaScript numbers are modelled as exact rationals (`ℚ`); the places where
  the source applies transcendental functions (`Math.log`, `Math.exp`,
  `Math.pow`, `Math.sqrt`) are modelled over the reals (`ℝ`).
- `Number.prototype.toFixed` rounds half away from zero (the ECMA algorithm
  picks the larger candidate on a tie, on the absolute value for negative
  inputs); `Math.round` rounds half toward positive infinity.
- The decimal rendering performed by JavaScript when interpolating a
  fractional double into a template string has no exact counterpart over
  `ℚ`/`ℝ`; the grading engine is therefore parametrised by a `NumberFormat`
  record supplying those renderings.  Integer-valued interpolations and
  `toFixed` on rationals are rendered concretely.
- JavaScript `Map` is modelled as an association list in insertion order
  (`assocSet` keeps the position of an existing key, as `Map.set` does).
- `Array.prototype.sort` (a stable sort ordered by the comparator) is
  modelled as `List.mergeSort`.
-/

namespace SqlTimeStudy

-- ===========================================================================
-- Basic JS-number helpers
-- ===========================================================================

/-- JavaScript `Math.round`: nearest integer, halves toward positive infinity. -/
def jsRound (q : ℚ) : ℤ := ⌊q + 1 / 2⌋

/-- Rounding used by `round2` in the source: `Math.round(n * 100) / 100`. -/
def round2 (q : ℚ) : ℚ := (jsRound (q * 100) : ℚ) / 100

/-- Rounding used by `round4` in the source: `Math.round(n * 10000) / 10000`. -/
def round4 (q : ℚ) : ℚ := (jsRound (q * 10000) : ℚ) / 10000

/-- The integer `n` with `n / 100` the value of `x.toFixed(2)`: round half
away from zero at the second decimal (ECMA `toFixed` semantics). -/
def roundCents (q : ℚ) : ℤ := if 0 ≤ q then ⌊q * 100 + 1 / 2⌋ else -⌊-q * 100 + 1 / 2⌋

/-- The integer `n` with `n / 10` the value of `x.toFixed(1)`. -/
def roundTenths (q : ℚ) : ℤ := if 0 ≤ q then ⌊q * 10 + 1 / 2⌋ else -⌊-q * 10 + 1 / 2⌋

/-- Default JS rendering of the number `n / 100` (as produced by
`Number(x.toFixed(2)).toString()`): no trailing zeros, no decimal point for
integers, `-` sign for negative values. -/
def renderCents (n : ℤ) : String :=
  let sign := if n < 0 then "-" else ""
  let m := n.natAbs
  let ip := m / 100
  let fr := m % 100
  if fr = 0 then sign ++ toString ip
  else if fr % 10 = 0 then sign ++ toString ip ++ "." ++ toString (fr / 10)
  else if fr < 10 then sign ++ toString ip ++ ".0" ++ toString fr
  else sign ++ toString ip ++ "." ++ toString fr

/-- JS `x.toFixed(1)` rendering of a rational: always exactly one decimal. -/
def renderFixed1 (q : ℚ) : String :=
  let n := roundTenths q
  let sign := if n < 0 then "-" else ""
  let m := n.natAbs
  sign ++ toString (m / 10) ++ "." ++ toString (m % 10)

-- ===========================================================================
-- Result verifier (source file with `compareResults`)
-- ===========================================================================

/-- Scalar cell values delivered by the execution engine (sql.js): a number,
a string, or NULL (JS `null`/`undefined` are merged: both normalize alike). -/
inductive SqlValue where
  | null : SqlValue
  | num : ℚ → SqlValue
  | text : String → SqlValue
deriving DecidableEq

structure QueryResult where
  columns : List String
  values : List (List SqlValue)
  error : Option String
deriving DecidableEq

structure ComparisonResult where
  isMatch : Bool
  studentResult : QueryResult
  expectedResult : QueryResult
  message : String
deriving DecidableEq

/-- `normalizeValue`: NULL token for null, numbers via `toFixed(2)` and back
through `Number(...).toString()`, strings as-is. -/
def normalizeValue : SqlValue → String
  | SqlValue.null => "NULL"
  | SqlValue.num q => renderCents (roundCents q)
  | SqlValue.text s => s

/-- Whitespace recognised by the model of JS `trim` and `\s`. -/
def isSpaceChar (c : Char) : Bool := c == ' ' || c == '\t' || c == '\n' || c == '\r'

/-- `normalizeColumnName`: lowercase then trim. -/
def normalizeColumnName (s : String) : String :=
  let l := (s.data.map Char.toLower).dropWhile isSpaceChar
  String.mk (l.reverse.dropWhile isSpaceChar).reverse

/-- `normalizeRow`. -/
def normalizeRow (row : List SqlValue) : List String := row.map normalizeValue

/-- Three-way comparison of characters by code point, the unit of JS string
comparison (strings compare by code units; the sources are ASCII, where code
units and code points agree). -/
def charCmp (c d : Char) : Ordering := if c < d then Ordering.lt
  else if d < c then Ordering.gt else Ordering.eq

/-- Lexicographic three-way comparison of character lists: the model of both
the default `Array.prototype.sort()` string comparison and `localeCompare`
(collation is modelled as code-unit order; what the verifier relies on is
only that it is total and discriminates exactly unequal strings). -/
def charListCmp : List Char → List Char → Ordering
  | [], [] => Ordering.eq
  | [], _ :: _ => Ordering.lt
  | _ :: _, [] => Ordering.gt
  | c :: cs, d :: ds =>
    match charCmp c d with
    | Ordering.eq => charListCmp cs ds
    | o => o

/-- Three-way comparison of strings, JS style. -/
def strCmp (a b : String) : Ordering := charListCmp a.data b.data

/-- The `i ≥ a.length` tail of the comparator loop: cells of `a` read as `""`. -/
def rowCmpNil : List String → Ordering
  | [] => Ordering.eq
  | y :: ys =>
    match strCmp "" y with
    | Ordering.eq => rowCmpNil ys
    | o => o

/-- The comparator of `sortRows` as a three-way compare: column-major
comparison of normalized rows, missing cells reading as `""`. -/
def rowCmp : List String → List String → Ordering
  | [], ys => rowCmpNil ys
  | x :: xs, [] =>
    match strCmp x "" with
    | Ordering.eq => rowCmp xs []
    | o => o
  | x :: xs, y :: ys =>
    match strCmp x y with
    | Ordering.eq => rowCmp xs ys
    | o => o

/-- A JS comparator keeps a pair in order when it returns `≤ 0`. -/
def rowLe (a b : List String) : Bool := rowCmp a b != Ordering.gt

/-- `sortRows`: normalize every row, then sort with the comparator. -/
def sortRows (rows : List (List SqlValue)) : List (List String) :=
  (rows.map normalizeRow).mergeSort rowLe

/-- JS default string sort order, used for the normalized column-name sets. -/
def strLe (a b : String) : Bool := strCmp a b != Ordering.gt

/-- The index `studentColMap.get(key)`: the JS `Map` built with `set` keeps
the last write for a key, so this is the last index whose normalized column
name equals `key`. -/
def colIndex (cols : List String) (key : String) : Option Nat :=
  ((cols.enum.filter (fun p => normalizeColumnName p.2 == key)).getLast?).map Prod.fst

/-- The loop of the `preserveOrder` branch: index of the first row (0-based)
where the two normalized row lists disagree. -/
def firstMismatch (i : Nat) : List (List String) → List (List String) → Option Nat
  | _, [] => none
  | [], _ :: _ => some i
  | a :: as, b :: bs => if a ≠ b then some i else firstMismatch (i + 1) as bs

/-- `compareResults`: the verifier of the source, step for step. -/
def compareResults (studentResult expectedResult : QueryResult)
    (preserveOrder : Bool) : ComparisonResult :=
  match studentResult.error with
  | some e =>
    ⟨false, studentResult, expectedResult, "Query error: " ++ e⟩
  | none =>
    if studentResult.columns.length ≠ expectedResult.columns.length then
      ⟨false, studentResult, expectedResult,
        "Column count mismatch: got " ++ toString studentResult.columns.length ++
          ", expected " ++ toString expectedResult.columns.length⟩
    else if studentResult.values.length ≠ expectedResult.values.length then
      ⟨false, studentResult, expectedResult,
        "Row count mismatch: got " ++ toString studentResult.values.length ++
          ", expected " ++ toString expectedResult.values.length⟩
    else
      let studentCols := (studentResult.columns.map normalizeColumnName).mergeSort strLe
      let expectedCols := (expectedResult.columns.map normalizeColumnName).mergeSort strLe
      if studentCols ≠ expectedCols then
        ⟨false, studentResult, expectedResult,
          "Column names don\x27t match. Got: " ++
            String.intercalate ", " studentResult.columns⟩
      else
        let colMapping := expectedResult.columns.map
          (fun col => colIndex studentResult.columns (normalizeColumnName col))
        let reordered := studentResult.values.map
          (fun row => colMapping.map
            (fun idx => match idx with
              | some i => (row.get? i).getD SqlValue.null
              | none => SqlValue.null))
        if preserveOrder then
          match firstMismatch 0 (reordered.map normalizeRow)
              (expectedResult.values.map normalizeRow) with
          | some i =>
            ⟨false, studentResult, expectedResult,
              "Row " ++ toString (i + 1) ++ " doesn\x27t match. Check your ORDER BY clause."⟩
          | none => ⟨true, studentResult, expectedResult, "Correct!"⟩
        else
          if sortRows reordered ≠ sortRows expectedResult.values then
            ⟨false, studentResult, expectedResult,
              "Results don\x27t match. Check your query logic."⟩
          else ⟨true, studentResult, expectedResult, "Correct!"⟩

-- ===========================================================================
-- Data model of the analysis module (`@/types` and `analysis.ts`)
-- ===========================================================================

structure TaskAttempt where
  studentId : String
  sqlExpertise : ℤ
  round : ℤ
  queryNum : ℤ
  taskId : String
  querySequence : ℚ
  attemptNum : ℤ
  timeSec : ℚ
  totalAttempts : ℤ
  submittedQuery : String
  completedAt : String
  isCorrect : Bool
deriving DecidableEq

structure StudentInfo where
  studentId : String
  sqlExpertise : ℤ
deriving DecidableEq

structure StudySession where
  studentInfo : Option StudentInfo
  currentRound : ℤ
  currentQuery : ℤ
  attempts : List TaskAttempt
  taskStartTime : Option ℚ
  isComplete : Bool
deriving DecidableEq

-- JS `Map` as an association list in insertion order.

/-- Does the map hold the key. -/
def assocHas {A : Type} (m : List (String × A)) (k : String) : Bool :=
  m.any (fun p => p.1 == k)

/-- `Map.set`: replace in place when present (keeping the key position, as JS
`Map` does), append when absent. -/
def assocSet {A : Type} (m : List (String × A)) (k : String) (v : A) :
    List (String × A) :=
  if assocHas m k then m.map (fun p => if p.1 == k then (k, v) else p)
  else m ++ [(k, v)]

/-- `Map.get`. -/
def assocGet? {A : Type} (m : List (String × A)) (k : String) : Option A :=
  (m.find? (fun p => p.1 == k)).map Prod.snd

/-- The `if (!m.has(k)) m.set(k, v)` idiom used for first-attempt maps. -/
def assocSetIfAbsent {A : Type} (m : List (String × A)) (k : String) (v : A) :
    List (String × A) :=
  if assocHas m k then m else m ++ [(k, v)]

-- ===========================================================================
-- `getSuccessfulAttempts`
-- ===========================================================================

/-- The working map of `getSuccessfulAttempts`: every correct attempt is
written under its `taskId`, so later correct submissions overwrite earlier
ones. -/
def bestMap (attempts : List TaskAttempt) : List (String × TaskAttempt) :=
  attempts.foldl (fun m a => if a.isCorrect then assocSet m a.taskId a else m) []

/-- The sort comparator `(a, b) => a.querySequence - b.querySequence`. -/
def seqLe (a b : TaskAttempt) : Bool := decide (a.querySequence ≤ b.querySequence)

/-- `getSuccessfulAttempts`: last correct attempt per task, sorted ascending
by `querySequence`. -/
def getSuccessfulAttempts (session : StudySession) : List TaskAttempt :=
  ((bestMap session.attempts).map Prod.snd).mergeSort seqLe

/-- The last attempt in log order that is correct and belongs to task `tid`
(the specification value that `getSuccessfulAttempts` retains per task). -/
def lastCorrectFor (attempts : List TaskAttempt) (tid : String) : Option TaskAttempt :=
  (attempts.filter (fun a => a.isCorrect && a.taskId == tid)).getLast?

-- ===========================================================================
-- Ordinary least squares (`ols`)
-- ===========================================================================

structure OlsResult (K : Type) where
  slope : K
  intercept : K
  rSquared : K

/-- The epsilon `1e-12` guarding the degenerate OLS cases. -/
def olsEps (K : Type) [LinearOrderedField K] : K := 1 / 10 ^ 12

/-- `ols` of the source, over any linear ordered field (the analysis module
instantiates it at the reals; the JS floats are idealised as exact values).
The source loops `i` over `xs.length` assuming `ys` has the same length
(anything else produces NaN in JS and is outside this model); the paired sums
are taken over `xs.zip ys`. -/
def ols {K : Type} [LinearOrderedField K] (xs ys : List K) : OlsResult K :=
  let n : K := xs.length
  let ps : List (K × K) := xs.zip ys
  let sumX : K := xs.sum
  let sumY : K := (ps.map Prod.snd).sum
  let sumXY : K := (ps.map (fun p => p.1 * p.2)).sum
  let sumX2 : K := (xs.map (fun x => x * x)).sum
  let denom : K := n * sumX2 - sumX * sumX
  if |denom| < olsEps K then ⟨0, sumY / n, 0⟩
  else
    let slope : K := (n * sumXY - sumX * sumY) / denom
    let intercept : K := (sumY - slope * sumX) / n
    let yMean : K := sumY / n
    let ssTot : K := (ps.map (fun p => (p.2 - yMean) ^ 2)).sum
    let ssRes : K := (ps.map (fun p => (p.2 - (intercept + slope * p.1)) ^ 2)).sum
    let rSquared : K := if ssTot < olsEps K then 0 else 1 - ssRes / ssTot
    ⟨slope, intercept, rSquared⟩

-- ===========================================================================
-- Learning-curve fit (`fitLearningCurve`)
-- ===========================================================================

structure LearningCurveResult where
  exponent : ℝ
  learningRate : ℝ
  intercept : ℝ
  predictedFirstTaskTime : ℝ
  rSquared : ℝ
  n : ℕ
  residuals : List ℝ
  predictedTimes : List ℝ

/-- `Math.round` over the reals. -/
noncomputable def jsRoundR (x : ℝ) : ℤ := ⌊x + 1 / 2⌋

/-- `round4` over the reals. -/
noncomputable def round4R (x : ℝ) : ℝ := (jsRoundR (x * 10000) : ℝ) / 10000

/-- `round2` over the reals. -/
noncomputable def round2R (x : ℝ) : ℝ := (jsRoundR (x * 100) : ℝ) / 100

/-- `fitLearningCurve`: OLS on `(ln querySequence, ln (max timeSec 0.01))`,
with the short-circuit for fewer than two observations. -/
noncomputable def fitLearningCurve (successful : List TaskAttempt) :
    LearningCurveResult :=
  let n := successful.length
  if n < 2 then
    { exponent := 0, learningRate := 1, intercept := 0,
      predictedFirstTaskTime := 0, rSquared := 0, n := n,
      residuals := [], predictedTimes := [] }
  else
    let xs := successful.map (fun a => Real.log (a.querySequence : ℝ))
    let ys := successful.map (fun a => Real.log (max (a.timeSec : ℝ) (1 / 100)))
    let fit := ols xs ys
    let residuals := (xs.zip ys).map
      (fun p => p.2 - (fit.intercept + fit.slope * p.1))
    let predictedTimes := xs.map
      (fun x => Real.exp (fit.intercept + fit.slope * x))
    { exponent := round4R fit.slope,
      learningRate := round4R ((2 : ℝ) ^ fit.slope),
      intercept := round4R fit.intercept,
      predictedFirstTaskTime := round4R (Real.exp fit.intercept),
      rSquared := round4R fit.rSquared,
      n := n,
      residuals := residuals.map round4R,
      predictedTimes := predictedTimes.map round4R }

-- ===========================================================================
-- SQL complexity classifier (`analyzeSqlComplexity`)
-- ===========================================================================

/-- JS regex `\w`. -/
def isWordChar (c : Char) : Bool := c.isAlphanum || c == '_'

/-- Is the position after a matched word a word boundary. -/
def nonWordAt : List Char → Bool
  | [] => true
  | c :: _ => !isWordChar c

/-- Does the word `w` occur at the head of `l`, ending at a word boundary. -/
def wordAt (w : List Char) (l : List Char) : Bool :=
  w.isPrefixOf l && nonWordAt (l.drop w.length)

/-- Counts the `\bW\b` matches of a global regex: the scanner carries whether
the current position sits at a left word boundary. -/
def countWordAux (w : List Char) : Bool → List Char → Nat
  | _, [] => 0
  | leftOk, c :: rest =>
    (if leftOk && wordAt w (c :: rest) then 1 else 0) +
      countWordAux w (!isWordChar c) rest

/-- Number of `\bW\b` matches in the text. -/
def countWord (w : List Char) (l : List Char) : Nat := countWordAux w true l

/-- After `\s*`, does the word `w` (with right boundary) start here. -/
def gapThenWord (w : List Char) : List Char → Bool
  | [] => false
  | c :: rest => if isSpaceChar c then gapThenWord w rest else wordAt w (c :: rest)

/-- After `\s+` (at least one space), does the word `w` start here. -/
def spacesThenWord (w : List Char) : List Char → Bool
  | [] => false
  | c :: rest => isSpaceChar c && gapThenWord w rest

/-- Matcher for `W1\s+W2\b` at the current position. -/
def pairAt (w₁ w₂ : List Char) (l : List Char) : Bool :=
  w₁.isPrefixOf l && spacesThenWord w₂ (l.drop w₁.length)

/-- Scanner for a regex whose match starts with `\b`: tries the matcher at
every position sitting at a left word boundary. -/
def testBounded (p : List Char → Bool) : Bool → List Char → Bool
  | _, [] => false
  | leftOk, c :: rest =>
    (leftOk && p (c :: rest)) || testBounded p (!isWordChar c) rest

/-- Scanner for a regex with no leading `\b` (the subquery pattern). -/
def testAnywhere (p : List Char → Bool) : List Char → Bool
  | [] => false
  | c :: rest => p (c :: rest) || testAnywhere p rest

/-- Matcher for `\(\s*SELECT\b` at the current position. -/
def subqueryAt : List Char → Bool
  | '(' :: rest => gapThenWord ("SELECT".data) rest
  | _ => false

structure SqlComplexity where
  queryLength : ℕ
  hasJoin : Bool
  hasGroupBy : Bool
  hasSubquery : Bool
  hasOrderBy : Bool
  hasHaving : Bool
  hasCaseWhen : Bool
  joinCount : ℕ
  tier : ℕ
deriving DecidableEq

/-- The tier assignment chain of `analyzeSqlComplexity`, an `if` sequence
where a later firing condition overwrites the tier. -/
def tierOf (hasJoin hasGroupBy hasSubquery hasHaving hasCaseWhen : Bool)
    (joinCount : ℕ) : ℕ :=
  let t1 := 1
  let t2 := if hasJoin && !hasGroupBy && !hasSubquery then 2 else t1
  let t3 := if hasGroupBy && !hasSubquery then 3 else t2
  let t3b := if hasJoin && hasGroupBy then 3 else t3
  let t4 := if decide (2 ≤ joinCount) && hasGroupBy then 4 else t3b
  let t4b := if hasSubquery || hasHaving || hasCaseWhen then 4 else t4
  if hasSubquery && (hasGroupBy || decide (2 ≤ joinCount)) then 5 else t4b

/-- `analyzeSqlComplexity`: uppercase the text, detect the six structural
features by (modelled) regex, count the joins, and run the tier chain. -/
def analyzeSqlComplexity (sql : String) : SqlComplexity :=
  let upper := sql.data.map Char.toUpper
  let hasJoin := testBounded (wordAt ("JOIN".data)) true upper
  let hasGroupBy := testBounded (pairAt ("GROUP".data) ("BY".data)) true upper
  let hasSubquery := testAnywhere subqueryAt upper
  let hasOrderBy := testBounded (pairAt ("ORDER".data) ("BY".data)) true upper
  let hasHaving := testBounded (wordAt ("HAVING".data)) true upper
  let hasCaseWhen := testBounded (pairAt ("CASE".data) ("WHEN".data)) true upper
  let joinCount := countWord ("JOIN".data) upper
  { queryLength := sql.length,
    hasJoin := hasJoin, hasGroupBy := hasGroupBy, hasSubquery := hasSubquery,
    hasOrderBy := hasOrderBy, hasHaving := hasHaving, hasCaseWhen := hasCaseWhen,
    joinCount := joinCount,
    tier := tierOf hasJoin hasGroupBy hasSubquery hasHaving hasCaseWhen joinCount }

-- ===========================================================================
-- Round summaries, task difficulty, overall statistics
-- ===========================================================================

/-- `ROUND_TITLES[round] || \x60Round ${round}\x60`. -/
def roundTitle (round : ℤ) : String :=
  if round = 1 then "The Patient"
  else if round = 2 then "The History"
  else if round = 3 then "The Pattern"
  else if round = 4 then "The Root Cause"
  else if round = 5 then "The Recommendation"
  else "Round " ++ toString round

/-- `TASKS_PER_ROUND[round] || 0`. -/
def tasksPerRound (round : ℤ) : ℕ :=
  if round = 1 then 3
  else if round = 2 then 3
  else if round = 3 then 4
  else if round = 4 then 4
  else if round = 5 then 4
  else 0

/-- Ascending comparator for time lists (`(a, b) => a - b`). -/
def qLe (a b : ℚ) : Bool := decide (a ≤ b)

/-- `median` of an already sorted list (0 for the empty list). -/
def median (sorted : List ℚ) : ℚ :=
  if sorted.length = 0 then 0
  else
    let mid := sorted.length / 2
    if sorted.length % 2 = 0 then
      ((sorted.get? (mid - 1)).getD 0 + (sorted.get? mid).getD 0) / 2
    else (sorted.get? mid).getD 0

structure RoundSummary where
  round : ℤ
  title : String
  tasksCompleted : ℕ
  totalTasks : ℕ
  totalTimeSec : ℚ
  avgTimeSec : ℚ
  medianTimeSec : ℚ
  minTimeSec : ℚ
  maxTimeSec : ℚ
  totalAttempts : ℕ
  avgAttempts : ℚ
  firstTrySuccessRate : ℚ
deriving DecidableEq

/-- The first-attempt map: for every task the correctness of its
chronologically first attempt. -/
def firstAttemptMap (attempts : List TaskAttempt) : List (String × Bool) :=
  attempts.foldl (fun m a => assocSetIfAbsent m a.taskId a.isCorrect) []

/-- `computeRoundSummaries`: one summary per round 1..5. -/
def computeRoundSummaries (successful allAttempts : List TaskAttempt) :
    List RoundSummary :=
  ([1, 2, 3, 4, 5] : List ℤ).map (fun round =>
    let roundSuccessful := successful.filter (fun a => a.round == round)
    let roundAll := allAttempts.filter (fun a => a.round == round)
    let times := roundSuccessful.map (fun a => a.timeSec)
    let sortedTimes := times.mergeSort qLe
    let firstPerTask := firstAttemptMap roundAll
    let firstTrySuccesses := ((firstPerTask.map Prod.snd).filter id).length
    { round := round,
      title := roundTitle round,
      tasksCompleted := roundSuccessful.length,
      totalTasks := tasksPerRound round,
      totalTimeSec := round2 times.sum,
      avgTimeSec := round2
        (if 0 < times.length then times.sum / times.length else 0),
      medianTimeSec := round2 (median sortedTimes),
      minTimeSec := round2 ((sortedTimes.get? 0).getD 0),
      maxTimeSec := round2 ((sortedTimes.get? (sortedTimes.length - 1)).getD 0),
      totalAttempts := roundAll.length,
      avgAttempts := round2
        (if 0 < roundSuccessful.length then
          (roundAll.length : ℚ) / roundSuccessful.length else 0),
      firstTrySuccessRate := round2
        (if 0 < firstPerTask.length then
          (firstTrySuccesses : ℚ) / firstPerTask.length else 0) })

structure TaskDifficulty where
  taskId : String
  round : ℤ
  queryNum : ℤ
  querySequence : ℚ
  timeSec : ℚ
  attempts : ℕ
  difficultyScore : ℤ
  firstTrySuccess : Bool
  sqlComplexity : SqlComplexity
deriving DecidableEq

/-- The per-task attempt counter of `computeTaskDifficulties`. -/
def attemptCountMap (attempts : List TaskAttempt) : List (String × ℕ) :=
  attempts.foldl
    (fun m a => assocSet m a.taskId ((assocGet? m a.taskId).getD 0 + 1)) []

/-- `computeTaskDifficulties`: difficulty of each successful attempt from
session-normalized time, attempts, and complexity tier. -/
def computeTaskDifficulties (successful allAttempts : List TaskAttempt) :
    List TaskDifficulty :=
  let attemptCounts := attemptCountMap allAttempts
  let firstCorrect := firstAttemptMap allAttempts
  let maxTime : ℚ := (successful.map (fun a => a.timeSec)).foldr max 1
  let maxAttempts : ℕ := ((attemptCounts.map Prod.snd).foldr max 1)
  successful.map (fun a =>
    let attempts : ℕ := max ((assocGet? attemptCounts a.taskId).getD 0) 1
    let complexity := analyzeSqlComplexity a.submittedQuery
    let timeNorm : ℚ := a.timeSec / maxTime
    let attemptNorm : ℚ := ((attempts : ℚ) - 1) / max ((maxAttempts : ℚ) - 1) 1
    let complexityNorm : ℚ := ((complexity.tier : ℚ) - 1) / 4
    let difficultyScore :=
      jsRound ((timeNorm * (4 / 10) + attemptNorm * (35 / 100) +
        complexityNorm * (25 / 100)) * 100)
    { taskId := a.taskId,
      round := a.round,
      queryNum := a.queryNum,
      querySequence := a.querySequence,
      timeSec := round2 a.timeSec,
      attempts := attempts,
      difficultyScore := min 100 (max 0 difficultyScore),
      firstTrySuccess := (assocGet? firstCorrect a.taskId).getD false,
      sqlComplexity := complexity })

structure OverallStats where
  totalTimeSec : ℚ
  totalTasks : ℕ
  completedTasks : ℕ
  totalAttempts : ℕ
  avgTimeSec : ℚ
  medianTimeSec : ℚ
  avgAttempts : ℚ
  firstTrySuccessRate : ℚ
  improvementRatio : ℚ
  timeStdDev : ℝ

/-- `computeOverallStats` (the standard deviation goes through `Math.sqrt`
and is the one real-valued field). -/
noncomputable def computeOverallStats (successful allAttempts : List TaskAttempt) :
    OverallStats :=
  let times := successful.map (fun a => a.timeSec)
  let sortedTimes := times.mergeSort qLe
  let totalTime := times.sum
  let avgTime : ℚ := if 0 < times.length then totalTime / times.length else 0
  let firstPerTask := firstAttemptMap allAttempts
  let firstTrySuccesses := ((firstPerTask.map Prod.snd).filter id).length
  let improvementRatio : ℚ :=
    if 6 ≤ successful.length then
      let first3Avg := ((successful.take 3).map (fun a => a.timeSec)).sum / 3
      let last3Avg :=
        ((successful.drop (successful.length - 3)).map (fun a => a.timeSec)).sum / 3
      if 0 < first3Avg then last3Avg / first3Avg else 1
    else 1
  let variance : ℚ :=
    if 1 < times.length then
      (times.map (fun t => (t - avgTime) * (t - avgTime))).sum /
        ((times.length : ℚ) - 1)
    else 0
  { totalTimeSec := round2 totalTime,
    totalTasks := 18,
    completedTasks := successful.length,
    totalAttempts := allAttempts.length,
    avgTimeSec := round2 avgTime,
    medianTimeSec := round2 (median sortedTimes),
    avgAttempts := round2
      (if 0 < successful.length then
        (allAttempts.length : ℚ) / successful.length else 0),
    firstTrySuccessRate := round2
      (if 0 < firstPerTask.length then
        (firstTrySuccesses : ℚ) / firstPerTask.length else 0),
    improvementRatio := round4 improvementRatio,
    timeStdDev := round2R (Real.sqrt (variance : ℝ)) }

structure AnalysisResult where
  learningCurve : Option LearningCurveResult
  roundSummaries : List RoundSummary
  taskDifficulties : List TaskDifficulty
  overallStats : OverallStats

/-- `analyzeSession`: `learningCurve` is null below three successful tasks. -/
noncomputable def analyzeSession (session : StudySession) : AnalysisResult :=
  let successful := getSuccessfulAttempts session
  let allAttempts := session.attempts
  { learningCurve :=
      if 3 ≤ successful.length then some (fitLearningCurve successful) else none,
    roundSummaries := computeRoundSummaries successful allAttempts,
    taskDifficulties := computeTaskDifficulties successful allAttempts,
    overallStats := computeOverallStats successful allAttempts }

-- ===========================================================================
-- Grading engine (source file with `gradeSession`)
-- ===========================================================================

inductive Severity where
  | info : Severity
  | warning : Severity
  | critical : Severity
deriving DecidableEq

structure GradingFlag where
  severity : Severity
  code : String
  message : String
deriving DecidableEq

structure CriterionResult where
  name : String
  description : String
  weight : ℚ
  rawScore : ℤ
  weightedScore : ℚ
  rationale : String
deriving DecidableEq

structure GradingResult where
  totalScore : ℤ
  letterGrade : String
  criteria : List CriterionResult
  flags : List GradingFlag
  summary : String

structure RubricConfig where
  totalTasks : ℚ
  minSecondsPerTask : ℚ
  maxSecondsPerTask : ℚ
  targetExponent : ℝ
  minRSquared : ℝ

/-- `DEFAULT_CONFIG`. -/
noncomputable def defaultConfig : RubricConfig :=
  { totalTasks := 18, minSecondsPerTask := 3, maxSecondsPerTask := 600,
    targetExponent := -(3 / 10), minRSquared := 15 / 100 }

/-- Decimal renderings of JS doubles interpolated into strings.  The shortest
round-trip decimal representation of an IEEE double has no counterpart over
`ℚ`/`ℝ`, so the grading engine is parametrised by it: `q` renders a
rational-modelled number, `r` and `rFixed1` render a real-modelled number
plainly and via `toFixed(1)`. -/
structure NumberFormat where
  q : ℚ → String
  r : ℝ → String
  rFixed1 : ℝ → String

/-- JS `x.toFixed(0)` on a rational. -/
def renderFixed0 (q : ℚ) : String :=
  let n : ℤ := if 0 ≤ q then ⌊q + 1 / 2⌋ else -⌊-q + 1 / 2⌋
  (if n < 0 then "-" else "") ++ toString n.natAbs

/-- JS `x.toFixed(2)` on a rational. -/
def renderFixed2 (q : ℚ) : String :=
  let n := roundCents q
  let sign := if n < 0 then "-" else ""
  let m := n.natAbs
  let fr := m % 100
  sign ++ toString (m / 100) ++ "." ++
    (if fr < 10 then "0" ++ toString fr else toString fr)

/-- Completion criterion (weight 0.20). -/
def scoreCompletion (fmt : NumberFormat) (analysis : AnalysisResult)
    (cfg : RubricConfig) : CriterionResult × List GradingFlag :=
  let weight : ℚ := 20 / 100
  let completed := analysis.overallStats.completedTasks
  let total := cfg.totalTasks
  let rawScore := jsRound (((completed : ℚ) / total) * 100)
  let flags :=
    if (completed : ℚ) < total then
      [⟨(if (completed : ℚ) < total * (5 / 10) then Severity.critical
          else Severity.warning), "INCOMPLETE",
        "Only " ++ toString completed ++ "/" ++ fmt.q total ++
          " tasks completed."⟩]
    else []
  (⟨"Completion", "Did the student complete all 18 SQL tasks?", weight,
    rawScore, round2 ((rawScore : ℚ) * weight),
    if (completed : ℚ) = total then "All tasks completed."
    else toString completed ++ "/" ++ fmt.q total ++ " tasks completed (" ++
      toString (jsRound (((completed : ℚ) / total) * 100)) ++ "%)."⟩, flags)

/-- Learning-curve criterion (weight 0.25). -/
noncomputable def scoreLearningCurve (fmt : NumberFormat)
    (analysis : AnalysisResult) (cfg : RubricConfig) :
    CriterionResult × List GradingFlag :=
  let weight : ℚ := 25 / 100
  match analysis.learningCurve with
  | none =>
    (⟨"Learning Curve", "Evidence of learning (negative exponent, reasonable fit)",
      weight, 0, 0, "Insufficient data for learning curve analysis."⟩,
      [⟨Severity.warning, "INSUFFICIENT_DATA_FOR_LC",
        "Not enough data points to fit a learning curve."⟩])
  | some lc =>
    if lc.n < 3 then
      (⟨"Learning Curve", "Evidence of learning (negative exponent, reasonable fit)",
        weight, 0, 0, "Insufficient data for learning curve analysis."⟩,
        [⟨Severity.warning, "INSUFFICIENT_DATA_FOR_LC",
          "Not enough data points to fit a learning curve."⟩])
    else
      let expPair : ℤ × List GradingFlag :=
        if 0 ≤ lc.exponent then
          (0, [⟨Severity.warning, "POSITIVE_EXPONENT",
            "Learning exponent is positive (" ++ fmt.r lc.exponent ++
              "), indicating no improvement over time."⟩])
        else if lc.exponent ≤ cfg.targetExponent then (100, [])
        else (jsRoundR ((lc.exponent / cfg.targetExponent) * 100), [])
      let rsqPair : ℤ × List GradingFlag :=
        if lc.rSquared < cfg.minRSquared then
          (0,
            if lc.exponent < 0 then
              [⟨Severity.info, "WEAK_FIT",
                "R² is low (" ++ fmt.r lc.rSquared ++
                  "), meaning the learning curve model doesn\x27t explain much variance."⟩]
            else [])
        else if 0.7 ≤ lc.rSquared then (100, [])
        else
          (jsRoundR (((lc.rSquared - cfg.minRSquared) / (0.7 - cfg.minRSquared)) * 100),
            [])
      let rawScore :=
        jsRound ((expPair.1 : ℚ) * (6 / 10) + (rsqPair.1 : ℚ) * (4 / 10))
      (⟨"Learning Curve", "Evidence of learning (negative exponent, reasonable fit)",
        weight, rawScore, round2 ((rawScore : ℚ) * weight),
        "Exponent: " ++ fmt.r lc.exponent ++ " (rate: " ++
          fmt.rFixed1 (lc.learningRate * 100) ++ "%), R²: " ++
          fmt.r lc.rSquared ++ "."⟩,
        expPair.2 ++ rsqPair.2)

/-- Efficiency criterion (weight 0.20). -/
def scoreEfficiency (_fmt : NumberFormat) (analysis : AnalysisResult)
    (_cfg : RubricConfig) : CriterionResult × List GradingFlag :=
  let weight : ℚ := 20 / 100
  let stats := analysis.overallStats
  let firstTryScore := jsRound (stats.firstTrySuccessRate * 100)
  let avgAttempts := stats.avgAttempts
  let attemptScore : ℤ :=
    if avgAttempts ≤ 1 then 100
    else if 3 ≤ avgAttempts then 0
    else jsRound (((3 - avgAttempts) / 2) * 100)
  let rawScore :=
    jsRound ((firstTryScore : ℚ) * (5 / 10) + (attemptScore : ℚ) * (5 / 10))
  let flags :=
    if 25 / 10 < avgAttempts then
      [⟨Severity.info, "HIGH_RETRY_RATE",
        "Average " ++ renderFixed1 avgAttempts ++
          " attempts per task. Student may need SQL fundamentals review."⟩]
    else []
  (⟨"Efficiency", "Low attempt counts, high first-try success rate", weight,
    rawScore, round2 ((rawScore : ℚ) * weight),
    "First-try rate: " ++ renderFixed0 (stats.firstTrySuccessRate * 100) ++
      "%, avg attempts: " ++ renderFixed1 avgAttempts ++ "."⟩, flags)

/-- Improvement-trend criterion (weight 0.15). -/
def scoreImprovement (_fmt : NumberFormat) (analysis : AnalysisResult)
    (_cfg : RubricConfig) : CriterionResult × List GradingFlag :=
  let weight : ℚ := 15 / 100
  let ratio := analysis.overallStats.improvementRatio
  let rawScore : ℤ :=
    if ratio ≤ 5 / 10 then 100
    else if 15 / 10 ≤ ratio then 0
    else if ratio ≤ 1 then jsRound (100 - (ratio - 5 / 10) * 100)
    else jsRound (50 - (ratio - 1) * 100)
  (⟨"Improvement Trend", "Performance improvement from first 3 to last 3 tasks",
    weight, min 100 (max 0 rawScore),
    round2 ((min 100 (max 0 rawScore) : ℚ) * weight),
    "Improvement ratio: " ++ renderFixed2 ratio ++ " (last 3 / first 3 avg time). " ++
      (if ratio < 1 then "Student improved."
        else if ratio = 1 then "No change." else "Student got slower.")⟩, [])

/-- Time-performance criterion (weight 0.20). -/
def scoreTimePerformance (fmt : NumberFormat) (analysis : AnalysisResult)
    (cfg : RubricConfig) : CriterionResult × List GradingFlag :=
  let weight : ℚ := 20 / 100
  let stats := analysis.overallStats
  let avgTime := stats.avgTimeSec
  let tasks := analysis.taskDifficulties
  let suspiciouslyFast := tasks.filter (fun t => t.timeSec < cfg.minSecondsPerTask)
  let fastFlags :=
    if 3 < suspiciouslyFast.length then
      [⟨Severity.critical, "SUSPICIOUSLY_FAST",
        toString suspiciouslyFast.length ++ " tasks completed in under " ++
          fmt.q cfg.minSecondsPerTask ++
          "s each. Possible copy-paste or pre-knowledge."⟩]
    else []
  let verySlowTasks := tasks.filter (fun t => cfg.maxSecondsPerTask < t.timeSec)
  let slowFlags :=
    if 0 < verySlowTasks.length then
      [⟨Severity.info, "VERY_SLOW_TASKS",
        toString verySlowTasks.length ++ " task(s) took over " ++
          fmt.q (cfg.maxSecondsPerTask / 60) ++ " minutes."⟩]
    else []
  let rawScore0 : ℤ := 100
  let rawScore1 : ℤ :=
    if 0 < suspiciouslyFast.length then
      rawScore0 - min 50 (suspiciouslyFast.length * 10)
    else rawScore0
  let rawScore2 : ℤ :=
    if 0 < verySlowTasks.length then
      rawScore1 - min 20 (verySlowTasks.length * 5)
    else rawScore1
  let avgPair : ℤ × List GradingFlag :=
    if avgTime < 5 then
      (min rawScore2 20,
        [⟨Severity.critical, "AVG_TIME_TOO_LOW",
          "Average time per task is " ++ renderFixed1 avgTime ++
            "s. This is unrealistically fast."⟩])
    else (rawScore2, [])
  (⟨"Time Performance",
    "Reasonable task completion times (not too fast, not excessively slow)",
    weight, min 100 (max 0 avgPair.1),
    round2 ((min 100 (max 0 avgPair.1) : ℚ) * weight),
    "Avg time: " ++ renderFixed1 avgTime ++ "s. " ++
      toString suspiciouslyFast.length ++ " fast, " ++
      toString verySlowTasks.length ++ " slow tasks."⟩,
    fastFlags ++ slowFlags ++ avgPair.2)

/-- `toLetterGrade`. -/
def toLetterGrade (score : ℤ) : String :=
  if 93 ≤ score then "A"
  else if 90 ≤ score then "A-"
  else if 87 ≤ score then "B+"
  else if 83 ≤ score then "B"
  else if 80 ≤ score then "B-"
  else if 77 ≤ score then "C+"
  else if 73 ≤ score then "C"
  else if 70 ≤ score then "C-"
  else if 67 ≤ score then "D+"
  else if 63 ≤ score then "D"
  else if 60 ≤ score then "D-"
  else "F"

/-- JS `criteria.reduce((a, b) => a.rawScore > b.rawScore ? a : b)`. -/
def reduceBest : CriterionResult → List CriterionResult → CriterionResult
  | a, [] => a
  | a, b :: rest => reduceBest (if b.rawScore < a.rawScore then a else b) rest

/-- JS `criteria.reduce((a, b) => a.rawScore < b.rawScore ? a : b)`. -/
def reduceWorst : CriterionResult → List CriterionResult → CriterionResult
  | a, [] => a
  | a, b :: rest => reduceWorst (if a.rawScore < b.rawScore then a else b) rest

/-- `buildSummary`.  The engine always passes its five criteria; on an empty
criteria list the JS `reduce` would throw, here it renders an empty string. -/
def buildSummary (totalScore : ℤ) (criteria : List CriterionResult)
    (flags : List GradingFlag) : String :=
  match criteria with
  | [] => ""
  | c :: rest =>
    let grade := toLetterGrade totalScore
    let best := reduceBest c rest
    let worst := reduceWorst c rest
    let criticalFlags := flags.filter (fun f => f.severity == Severity.critical)
    let base :=
      "Score: " ++ toString totalScore ++ "/100 (" ++ grade ++ ")." ++
        " Strongest area: " ++ best.name ++ " (" ++ toString best.rawScore ++
        "/100)." ++
        " Area for growth: " ++ worst.name ++ " (" ++ toString worst.rawScore ++
        "/100)."
    if criticalFlags.length ≠ 0 then
      base ++ (" REVIEW NEEDED: " ++
        String.intercalate " " (criticalFlags.map (fun f => f.message)))
    else base

/-- `gradeSession`: the five criteria in order, their flags in push order,
the rounded and clamped weighted total, the letter grade (computed from the
unclamped total, as in the source) and the summary. -/
noncomputable def gradeSession (fmt : NumberFormat) (analysis : AnalysisResult)
    (cfg : RubricConfig) : GradingResult :=
  let completion := scoreCompletion fmt analysis cfg
  let learningCurve := scoreLearningCurve fmt analysis cfg
  let efficiency := scoreEfficiency fmt analysis cfg
  let improvement := scoreImprovement fmt analysis cfg
  let timePerformance := scoreTimePerformance fmt analysis cfg
  let criteria := [completion.1, learningCurve.1, efficiency.1, improvement.1,
    timePerformance.1]
  let flags := completion.2 ++ learningCurve.2 ++ efficiency.2 ++
    improvement.2 ++ timePerformance.2
  let totalScore := jsRound ((criteria.map (fun c => c.weightedScore)).sum)
  { totalScore := min 100 (max 0 totalScore),
    letterGrade := toLetterGrade totalScore,
    criteria := criteria,
    flags := flags,
    summary := buildSummary totalScore criteria flags }

-- ===========================================================================
-- Concrete fixtures used by counterexamples and witnesses
-- ===========================================================================

/-- Equal duplicate column lists, equal row multisets, different row order:
the submitted side of the duplicate-column counterexample. -/
def dupColStudent : QueryResult :=
  ⟨["a", "a"], [[SqlValue.text ("r1"), SqlValue.text ("r2")],
    [SqlValue.text ("r3"), SqlValue.text ("r4")]], none⟩

/-- The reference side of the duplicate-column counterexample. -/
def dupColExpected : QueryResult :=
  ⟨["a", "a"], [[SqlValue.text ("r3"), SqlValue.text ("r4")],
    [SqlValue.text ("r1"), SqlValue.text ("r2")]], none⟩

/-- Distinct columns, equal row multisets in different order: submitted side. -/
def permStudent : QueryResult :=
  ⟨["a", "b"], [[SqlValue.text ("r1"), SqlValue.text ("r2")],
    [SqlValue.text ("r3"), SqlValue.text ("r4")]], none⟩

/-- Distinct columns, equal row multisets in different order: reference side. -/
def permExpected : QueryResult :=
  ⟨["a", "b"], [[SqlValue.text ("r3"), SqlValue.text ("r4")],
    [SqlValue.text ("r1"), SqlValue.text ("r2")]], none⟩

/-- A session with no attempts at all. -/
def emptySession : StudySession :=
  { studentInfo := none, currentRound := 1, currentQuery := 1, attempts := [],
    taskStartTime := none, isComplete := false }

/-- A trivial rendering used to instantiate the grading engine concretely. -/
def trivialFormat : NumberFormat :=
  { q := fun _ => "", r := fun _ => "", rFixed1 := fun _ => "" }

/-- A concrete attempt used by the degenerate-fit counterexample. -/
def sampleAttempt : TaskAttempt :=
  { studentId := "s1", sqlExpertise := 0, round := 1, queryNum := 1,
    taskId := "1.1", querySequence := 1, attemptNum := 1, timeSec := 100,
    totalAttempts := 1, submittedQuery := "SELECT 1;", completedAt := "",
    isCorrect := true }

-- ===========================================================================
-- Theorems
-- ===========================================================================

-- Helper lemmas ---------------------------------------------------------------

theorem map_snd_zip_of_length_eq {K : Type} (xs ys : List K)
    (hlen : xs.length = ys.length) : (xs.zip ys).map Prod.snd = ys := by
  induction xs generalizing ys with
  | nil => cases ys with
    | nil => rfl
    | cons y ys => simp at hlen
  | cons x xs ih => cases ys with
    | nil => simp at hlen
    | cons y ys =>
      simp only [List.zip_cons_cons, List.map_cons]
      rw [ih ys (by simpa using hlen)]

-- C2 --------------------------------------------------------------------------

/-- C2: in `ols`, if the magnitude of the denominator `n·Σx² − (Σx)²` is below
the epsilon `1e-12` the result is slope 0, intercept `mean(y)`, R² 0; and
independently, whenever `SS_tot` is below the epsilon the result has R² 0. -/
theorem ols_degenerate_guards {K : Type} [LinearOrderedField K]
    (xs ys : List K) (hlen : xs.length = ys.length) :
    (|(xs.length : K) * (xs.map (fun x => x * x)).sum - xs.sum * xs.sum| < olsEps K →
      (ols xs ys).slope = 0 ∧
      (ols xs ys).intercept = ys.sum / (ys.length : K) ∧
      (ols xs ys).rSquared = 0) ∧
    ((ys.map (fun y => (y - ys.sum / (ys.length : K)) ^ 2)).sum < olsEps K →
      (ols xs ys).rSquared = 0) := by
  have hsnd : (xs.zip ys).map Prod.snd = ys := map_snd_zip_of_length_eq xs ys hlen
  have hsum : ((xs.zip ys).map Prod.snd).sum = ys.sum := by rw [hsnd]
  have htot : ∀ m : K,
      ((xs.zip ys).map (fun p => (p.2 - m) ^ 2)).sum =
        (ys.map (fun y => (y - m) ^ 2)).sum := by
    intro m
    have h := congrArg (fun l => (l.map (fun y => (y - m) ^ 2)).sum) hsnd
    simp only at h
    rw [← h, List.map_map]
    rfl
  unfold ols
  simp only [hsum, hlen]
  constructor
  · intro h
    rw [if_pos h]
    exact ⟨rfl, rfl, rfl⟩
  · intro h
    split
    · rfl
    · simp only [htot] at *
      rw [if_pos h]

/-- Witness for C2: at `xs = [1, 1]` the denominator vanishes and the fit is
`(0, mean y, 0)`; at `ys = [3, 3]` the total sum of squares vanishes and
R² is 0. -/
theorem ols_degenerate_guards_witness :
    (([1, 1] : List ℚ).length = ([2, 3] : List ℚ).length ∧
      |(([1, 1] : List ℚ).length : ℚ) * (([1, 1] : List ℚ).map (fun x => x * x)).sum -
          ([1, 1] : List ℚ).sum * ([1, 1] : List ℚ).sum| < olsEps ℚ ∧
      (ols ([1, 1] : List ℚ) [2, 3]).slope = 0 ∧
      (ols ([1, 1] : List ℚ) [2, 3]).intercept = 5 / 2 ∧
      (ols ([1, 1] : List ℚ) [2, 3]).rSquared = 0) ∧
    (([1, 2] : List ℚ).length = ([3, 3] : List ℚ).length ∧
      (([3, 3] : List ℚ).map
        (fun y => (y - ([3, 3] : List ℚ).sum / (([3, 3] : List ℚ).length : ℚ)) ^ 2)).sum <
        olsEps ℚ ∧
      (ols ([1, 2] : List ℚ) [3, 3]).rSquared = 0) := by
  have h1 : |(([1, 1] : List ℚ).length : ℚ) *
      (([1, 1] : List ℚ).map (fun x => x * x)).sum -
      ([1, 1] : List ℚ).sum * ([1, 1] : List ℚ).sum| < olsEps ℚ := by
    norm_num [olsEps]
  have h2 : (([3, 3] : List ℚ).map
      (fun y => (y - ([3, 3] : List ℚ).sum / (([3, 3] : List ℚ).length : ℚ)) ^ 2)).sum <
      olsEps ℚ := by
    norm_num [olsEps]
  have m1 := (ols_degenerate_guards ([1, 1] : List ℚ) [2, 3] (by norm_num)).1 h1
  have m2 := (ols_degenerate_guards ([1, 2] : List ℚ) [3, 3] (by norm_num)).2 h2
  refine ⟨⟨by norm_num, h1, m1.1, ?_, m1.2.2⟩, ⟨by norm_num, h2, m2⟩⟩
  rw [m1.2.1]
  norm_num

-- C3 --------------------------------------------------------------------------

/-- C3 counterexample: for exactly one observation the fitter returns
intercept 0, which differs from the single transformed value
`ln(max(elapsedSeconds, 0.01)) = ln 100`. -/
theorem fitLearningCurve_single_obs_counterexample :
    (fitLearningCurve [sampleAttempt]).intercept ≠
      Real.log (max ((sampleAttempt.timeSec : ℝ)) (1 / 100)) := by
  have h0 : (fitLearningCurve [sampleAttempt]).intercept = 0 := by
    simp [fitLearningCurve]
  have h1 : max ((sampleAttempt.timeSec : ℝ)) (1 / 100) = 100 := by
    rw [max_eq_left] <;> norm_num [sampleAttempt]
  rw [h0, h1]
  exact ne_of_lt (Real.log_pos (by norm_num))

/-- C3 (amended): for fewer than two observations (zero or one) the fitter
returns every field zero except `learningRate = 1` — in particular the
intercept is 0, not the single transformed value. -/
theorem fitLearningCurve_degenerate (successful : List TaskAttempt)
    (h : successful.length < 2) :
    fitLearningCurve successful =
      { exponent := 0, learningRate := 1, intercept := 0,
        predictedFirstTaskTime := 0, rSquared := 0, n := successful.length,
        residuals := [], predictedTimes := [] } := by
  unfold fitLearningCurve
  rw [if_pos h]

/-- Witness for the amended C3 at the empty observation list. -/
theorem fitLearningCurve_degenerate_witness :
    ([] : List TaskAttempt).length < 2 ∧
      fitLearningCurve ([] : List TaskAttempt) =
        { exponent := 0, learningRate := 1, intercept := 0,
          predictedFirstTaskTime := 0, rSquared := 0, n := 0,
          residuals := [], predictedTimes := [] } :=
  ⟨by norm_num, by simpa using fitLearningCurve_degenerate [] (by norm_num)⟩

-- C4 --------------------------------------------------------------------------

theorem testBounded_wordAt_eq_countWord (w : List Char) (b : Bool)
    (l : List Char) :
    testBounded (wordAt w) b l = decide (0 < countWordAux w b l) := by
  induction l generalizing b with
  | nil => simp [testBounded, countWordAux]
  | cons c rest ih =>
    by_cases h : (b && wordAt w (c :: rest)) = true <;>
      simp [testBounded, countWordAux, h, ih]

theorem tierOf_eq_two_iff (hJ hG hS hH hC : Bool) (jc : ℕ) :
    tierOf hJ hG hS hH hC jc = 2 ↔
      (hJ = true ∧ hG = false ∧ hS = false ∧ hH = false ∧ hC = false) := by
  by_cases h2 : 2 ≤ jc <;>
    cases hJ <;> cases hG <;> cases hS <;> cases hH <;> cases hC <;>
      simp [tierOf, h2]

theorem tierOf_eq_five_iff (hJ hG hS hH hC : Bool) (jc : ℕ) :
    tierOf hJ hG hS hH hC jc = 5 ↔
      (hS = true ∧ (hG = true ∨ 2 ≤ jc)) := by
  by_cases h2 : 2 ≤ jc <;>
    cases hJ <;> cases hG <;> cases hS <;> cases hH <;> cases hC <;>
      simp [tierOf, h2]

/-- C4 counterexample: an artifact with two join keywords, no grouping, no
nested query, no post-aggregation filter and no conditional is assigned tier 2
by the classifier, while the claimed decision table requires exactly one join
for tier 2 (it would leave this artifact at tier 1). -/
theorem analyzeSqlComplexity_two_join_counterexample :
    (analyzeSqlComplexity ("SELECT * FROM a JOIN b ON a.x = b.x JOIN c ON b.y = c.y;")).tier = 2 ∧
    (analyzeSqlComplexity ("SELECT * FROM a JOIN b ON a.x = b.x JOIN c ON b.y = c.y;")).joinCount = 2 ∧
    (analyzeSqlComplexity ("SELECT * FROM a JOIN b ON a.x = b.x JOIN c ON b.y = c.y;")).hasGroupBy = false ∧
    (analyzeSqlComplexity ("SELECT * FROM a JOIN b ON a.x = b.x JOIN c ON b.y = c.y;")).hasSubquery = false ∧
    (analyzeSqlComplexity ("SELECT * FROM a JOIN b ON a.x = b.x JOIN c ON b.y = c.y;")).hasHaving = false ∧
    (analyzeSqlComplexity ("SELECT * FROM a JOIN b ON a.x = b.x JOIN c ON b.y = c.y;")).hasCaseWhen = false := by
  decide

/-- C4 (amended): the classifier applies the tier chain with last match
winning; in particular tier 2 is assigned exactly when at least one join-like
combination (any count) is present with no grouping, no nested query, no
post-aggregation filter and no conditional expression, and tier 5 exactly
when a nested query is present together with grouping or join count ≥ 2;
the join flag holds exactly when the join count is positive. -/
theorem analyzeSqlComplexity_tier_spec (sql : String) :
    ((analyzeSqlComplexity sql).tier = 2 ↔
      ((analyzeSqlComplexity sql).hasJoin = true ∧
        (analyzeSqlComplexity sql).hasGroupBy = false ∧
        (analyzeSqlComplexity sql).hasSubquery = false ∧
        (analyzeSqlComplexity sql).hasHaving = false ∧
        (analyzeSqlComplexity sql).hasCaseWhen = false)) ∧
    ((analyzeSqlComplexity sql).tier = 5 ↔
      ((analyzeSqlComplexity sql).hasSubquery = true ∧
        ((analyzeSqlComplexity sql).hasGroupBy = true ∨
          2 ≤ (analyzeSqlComplexity sql).joinCount))) ∧
    (analyzeSqlComplexity sql).hasJoin =
      decide (0 < (analyzeSqlComplexity sql).joinCount) := by
  refine ⟨?_, ?_, ?_⟩
  · exact tierOf_eq_two_iff _ _ _ _ _ _
  · exact tierOf_eq_five_iff _ _ _ _ _ _
  · exact testBounded_wordAt_eq_countWord _ _ _

-- C6 --------------------------------------------------------------------------

theorem roundCents_18004999 : roundCents (18004999 / 1000000) = 1800 := by
  unfold roundCents
  rw [if_pos (by norm_num)]
  norm_num

theorem roundCents_18005001 : roundCents (18005001 / 1000000) = 1801 := by
  unfold roundCents
  rw [if_pos (by norm_num)]
  norm_num

/-- C6 counterexample: the submitted value 18.004999 normalizes to `"18"` and
the reference value 18.005001 to `"18.01"`, so the two are treated as
unequal, not equal as claimed. -/
theorem normalizeValue_tolerance_counterexample :
    normalizeValue (SqlValue.num (18004999 / 1000000)) = "18" ∧
    normalizeValue (SqlValue.num (18005001 / 1000000)) = "18.01" ∧
    normalizeValue (SqlValue.num (18004999 / 1000000)) ≠
      normalizeValue (SqlValue.num (18005001 / 1000000)) := by
  have h1 : normalizeValue (SqlValue.num (18004999 / 1000000)) = "18" := by
    show renderCents (roundCents (18004999 / 1000000)) = "18"
    rw [roundCents_18004999]
    decide
  have h2 : normalizeValue (SqlValue.num (18005001 / 1000000)) = "18.01" := by
    show renderCents (roundCents (18005001 / 1000000)) = "18.01"
    rw [roundCents_18005001]
    decide
  refine ⟨h1, h2, ?_⟩
  rw [h1, h2]
  decide

/-- C6 (amended): numeric cells are rounded to two decimals half away from
zero before string conversion (`18.005 ↦ "18.01"`, `-18.005 ↦ "-18.01"`), so
two numeric values rounding to the same two-decimal value normalize alike,
while `18.004999 ↦ "18"` and `18.005001 ↦ "18.01"` are treated as unequal. -/
theorem normalizeValue_num_rounding :
    (∀ q₁ q₂ : ℚ, roundCents q₁ = roundCents q₂ →
      normalizeValue (SqlValue.num q₁) = normalizeValue (SqlValue.num q₂)) ∧
    normalizeValue (SqlValue.num (18005 / 1000)) = "18.01" ∧
    normalizeValue (SqlValue.num (-(18005 / 1000))) = "-18.01" ∧
    normalizeValue (SqlValue.num (18004999 / 1000000)) = "18" ∧
    normalizeValue (SqlValue.num (18005001 / 1000000)) = "18.01" := by
  refine ⟨?_, ?_, ?_, ?_, ?_⟩
  · intro q₁ q₂ h
    show renderCents (roundCents q₁) = renderCents (roundCents q₂)
    rw [h]
  · show renderCents (roundCents (18005 / 1000)) = "18.01"
    rw [show roundCents (18005 / 1000) = 1801 by
      unfold roundCents; rw [if_pos (by norm_num)]; norm_num]
    decide
  · show renderCents (roundCents (-(18005 / 1000))) = "-18.01"
    rw [show roundCents (-(18005 / 1000)) = -1801 by
      unfold roundCents; rw [if_neg (by norm_num)]; norm_num]
    decide
  · show renderCents (roundCents (18004999 / 1000000)) = "18"
    rw [roundCents_18004999]; decide
  · show renderCents (roundCents (18005001 / 1000000)) = "18.01"
    rw [roundCents_18005001]; decide

/-- Witness for the amended C6: 18.01 and 1801/100 round alike, so they
normalize to the same string. -/
theorem normalizeValue_num_rounding_witness :
    roundCents (1801 / 100) = roundCents (180100 / 10000) ∧
    normalizeValue (SqlValue.num (1801 / 100)) =
      normalizeValue (SqlValue.num (180100 / 10000)) :=
  ⟨by norm_num, normalizeValue_num_rounding.1 _ _ (by norm_num)⟩

-- C7 --------------------------------------------------------------------------

/-- C7: the Time Performance raw score is 100 minus `min(50, 10·fast)` minus
`min(20, 5·slow)`, then capped at 20 whenever the average time over the
successful attempts is below 5 seconds (penalties and cap compound), and
finally clamped to `[0, 100]`; the critical `AVG_TIME_TOO_LOW` flag is raised
exactly when the average is below 5 seconds. -/
theorem scoreTimePerformance_spec (fmt : NumberFormat)
    (analysis : AnalysisResult) (cfg : RubricConfig) :
    ((scoreTimePerformance fmt analysis cfg).1.rawScore =
      (let fast :=
        (analysis.taskDifficulties.filter
          (fun t => t.timeSec < cfg.minSecondsPerTask)).length
       let slow :=
        (analysis.taskDifficulties.filter
          (fun t => cfg.maxSecondsPerTask < t.timeSec)).length
       let base : ℤ := 100 - min 50 (10 * (fast : ℤ)) - min 20 (5 * (slow : ℤ))
       min 100 (max 0
         (if analysis.overallStats.avgTimeSec < 5 then min base 20 else base)))) ∧
    ((analysis.overallStats.avgTimeSec < 5) ↔
      ∃ f ∈ (scoreTimePerformance fmt analysis cfg).2,
        f.code = "AVG_TIME_TOO_LOW" ∧ f.severity = Severity.critical) := by
  unfold scoreTimePerformance
  constructor
  · by_cases havg : analysis.overallStats.avgTimeSec < 5 <;>
      by_cases hf :
        0 < (analysis.taskDifficulties.filter
          (fun t => t.timeSec < cfg.minSecondsPerTask)).length <;>
      by_cases hs :
        0 < (analysis.taskDifficulties.filter
          (fun t => cfg.maxSecondsPerTask < t.timeSec)).length <;>
      simp only [if_pos, if_neg, havg, hf, hs, ite_true, ite_false] <;>
      omega
  · by_cases havg : analysis.overallStats.avgTimeSec < 5
    · refine Iff.intro (fun _ => ?_) (fun _ => havg)
      refine ⟨⟨Severity.critical, "AVG_TIME_TOO_LOW",
        "Average time per task is " ++
          renderFixed1 analysis.overallStats.avgTimeSec ++
          "s. This is unrealistically fast."⟩, ?_, rfl, rfl⟩
      simp [havg]
    · refine Iff.intro (fun h => absurd h havg) (fun h => ?_)
      exfalso
      rcases h with ⟨f, hf, hcode, _⟩
      simp only [List.mem_append] at hf
      rcases hf with (hf | hf) | hf
      · by_cases h3 :
          3 < (analysis.taskDifficulties.filter
            (fun t => t.timeSec < cfg.minSecondsPerTask)).length
        · simp only [h3, if_true, ite_true, List.mem_singleton] at hf
          rw [hf] at hcode
          have hlit : "SUSPICIOUSLY_FAST" = "AVG_TIME_TOO_LOW" := hcode
          exact absurd hlit (by decide)
        · simp only [h3, if_false, ite_false, List.not_mem_nil] at hf
      · by_cases h0 :
          0 < (analysis.taskDifficulties.filter
            (fun t => cfg.maxSecondsPerTask < t.timeSec)).length
        · simp only [h0, if_true, ite_true, List.mem_singleton] at hf
          rw [hf] at hcode
          have hlit : "VERY_SLOW_TASKS" = "AVG_TIME_TOO_LOW" := hcode
          exact absurd hlit (by decide)
        · simp only [h0, if_false, ite_false, List.not_mem_nil] at hf
      · simp only [havg, if_false, ite_false, List.not_mem_nil] at hf

-- C1 --------------------------------------------------------------------------

theorem mem_assocSet {A : Type} (m : List (String × A)) (k : String) (v : A)
    (k' : String) (v' : A) :
    ((k', v') ∈ assocSet m k v) ↔
      ((k' = k ∧ v' = v) ∨ (k' ≠ k ∧ (k', v') ∈ m)) := by
  unfold assocSet
  by_cases h : assocHas m k = true
  · rw [if_pos h]
    constructor
    · intro hmem
      rcases List.mem_map.1 hmem with ⟨p, hp, hfp⟩
      by_cases hpk : (p.1 == k) = true
      · rw [if_pos hpk] at hfp
        have h1 : k = k' := congrArg Prod.fst hfp
        have h2 : v = v' := congrArg Prod.snd hfp
        exact Or.inl ⟨h1.symm, h2.symm⟩
      · rw [if_neg hpk] at hfp
        subst hfp
        refine Or.inr ⟨?_, hp⟩
        intro hkk
        apply hpk
        simpa using hkk
    · intro hmem
      rcases hmem with ⟨hk, hv⟩ | ⟨hk, hmem⟩
      · unfold assocHas at h
        rcases List.any_eq_true.1 h with ⟨p, hp, hpk⟩
        refine List.mem_map.2 ⟨p, hp, ?_⟩
        rw [if_pos hpk, hk, hv]
      · refine List.mem_map.2 ⟨(k', v'), hmem, ?_⟩
        rw [if_neg (by simpa using hk)]
  · rw [if_neg h]
    unfold assocHas at h
    constructor
    · intro hmem
      rcases List.mem_append.1 hmem with hmem | hmem
      · refine Or.inr ⟨?_, hmem⟩
        intro hkk
        apply h
        exact List.any_eq_true.2 ⟨(k', v'), hmem, by simpa using hkk⟩
      · simp only [List.mem_singleton, Prod.mk.injEq] at hmem
        exact Or.inl hmem
    · intro hmem
      rcases hmem with ⟨hk, hv⟩ | ⟨_, hmem⟩
      · exact List.mem_append.2 (Or.inr (by simp [hk, hv]))
      · exact List.mem_append.2 (Or.inl hmem)

theorem lastCorrectFor_cons (a : TaskAttempt) (l : List TaskAttempt)
    (tid : String) :
    lastCorrectFor (a :: l) tid =
      (match lastCorrectFor l tid with
        | some w => some w
        | none => if a.isCorrect && a.taskId == tid then some a else none) := by
  unfold lastCorrectFor
  rw [List.filter_cons]
  by_cases hp : (a.isCorrect && a.taskId == tid) = true
  · rw [if_pos hp]
    cases hfl : l.filter (fun x => x.isCorrect && x.taskId == tid) with
    | nil => simp [hp]
    | cons b bs =>
      rw [List.getLast?_cons_cons]
      cases hg : (b :: bs).getLast? with
      | none =>
        have h2 : (b :: bs).getLast?.isSome := List.getLast?_isSome.2 (by simp)
        rw [hg] at h2
        simp at h2
      | some w => rfl
  · rw [if_neg hp]
    cases hfl : l.filter (fun x => x.isCorrect && x.taskId == tid) with
    | nil => simp [hp]
    | cons b bs =>
      cases hg : (b :: bs).getLast? with
      | none =>
        have h2 : (b :: bs).getLast?.isSome := List.getLast?_isSome.2 (by simp)
        rw [hg] at h2
        simp at h2
      | some w => rfl

theorem lastCorrectFor_eq_some (l : List TaskAttempt) (tid : String)
    (w : TaskAttempt) (h : lastCorrectFor l tid = some w) :
    w ∈ l ∧ w.isCorrect = true ∧ w.taskId = tid := by
  unfold lastCorrectFor at h
  have hm := List.mem_of_getLast?_eq_some h
  rcases List.mem_filter.1 hm with ⟨hmem, hpred⟩
  simp only [Bool.and_eq_true, beq_iff_eq] at hpred
  exact ⟨hmem, hpred.1, hpred.2⟩

theorem mem_bestMap_foldl (l : List TaskAttempt) :
    ∀ (m : List (String × TaskAttempt)) (k : String) (v : TaskAttempt),
      ((k, v) ∈ l.foldl
          (fun m a => if a.isCorrect then assocSet m a.taskId a else m) m) ↔
        (match lastCorrectFor l k with
          | some w => v = w
          | none => (k, v) ∈ m) := by
  induction l with
  | nil =>
    intro m k v
    simp [lastCorrectFor]
  | cons a l ih =>
    intro m k v
    rw [List.foldl_cons, ih, lastCorrectFor_cons]
    cases hl : lastCorrectFor l k with
    | some w => rfl
    | none =>
      by_cases hc : a.isCorrect = true
      · by_cases ht : a.taskId = k
        · subst ht
          simp [hc, mem_assocSet]
        · have hk : ¬(k = a.taskId) := fun hh => ht hh.symm
          simp [hc, ht, hk, mem_assocSet]
      · have hc' : a.isCorrect = false := by simpa using hc
        simp [hc', mem_assocSet]

theorem mem_bestMap (l : List TaskAttempt) (k : String) (v : TaskAttempt) :
    ((k, v) ∈ bestMap l) ↔ lastCorrectFor l k = some v := by
  unfold bestMap
  rw [mem_bestMap_foldl]
  cases hl : lastCorrectFor l k with
  | some w =>
    constructor
    · intro hv
      rw [hv]
    · intro hv
      exact (Option.some.injEq _ _ ▸ hv).symm
  | none => simp

theorem assocSet_keys {A : Type} (m : List (String × A)) (k : String) (v : A) :
    (assocSet m k v).map Prod.fst =
      if assocHas m k then m.map Prod.fst else m.map Prod.fst ++ [k] := by
  unfold assocSet
  by_cases h : assocHas m k = true
  · rw [if_pos h, if_pos h, List.map_map]
    refine List.map_congr_left ?_
    intro p _
    by_cases hpk : p.1 == k
    · simp only [Function.comp_apply, if_pos hpk]
      exact (beq_iff_eq.1 hpk).symm
    · simp only [Function.comp_apply, if_neg hpk]
  · rw [if_neg h, if_neg h]
    simp

theorem bestMap_keys_nodup (l : List TaskAttempt) :
    ((bestMap l).map Prod.fst).Nodup := by
  unfold bestMap
  suffices h : ∀ m : List (String × TaskAttempt), (m.map Prod.fst).Nodup →
      ((l.foldl (fun m a => if a.isCorrect then assocSet m a.taskId a else m)
        m).map Prod.fst).Nodup by
    exact h [] (by simp)
  induction l with
  | nil => intro m hm; simpa using hm
  | cons a l ih =>
    intro m hm
    rw [List.foldl_cons]
    apply ih
    by_cases hc : a.isCorrect = true
    · rw [if_pos hc, assocSet_keys]
      by_cases hh : assocHas m a.taskId = true
      · rw [if_pos hh]; exact hm
      · rw [if_neg hh]
        rw [List.nodup_append]
        refine ⟨hm, List.nodup_singleton _, ?_⟩
        intro x hx
        simp only [List.mem_singleton]
        intro hxk
        apply hh
        rcases List.mem_map.1 hx with ⟨p, hp, hpk⟩
        exact List.any_eq_true.2 ⟨p, hp, by simp [hpk, hxk]⟩
    · rw [if_neg hc]; exact hm

theorem bestMap_snd_taskId (l : List TaskAttempt) (p : String × TaskAttempt)
    (hp : p ∈ bestMap l) : p.2.taskId = p.1 := by
  rcases p with ⟨k, v⟩
  exact (lastCorrectFor_eq_some l k v ((mem_bestMap l k v).1 hp)).2.2

theorem seqLe_trans (a b c : TaskAttempt) (hab : seqLe a b) (hbc : seqLe b c) :
    seqLe a c := by
  unfold seqLe at *
  exact decide_eq_true (le_trans (of_decide_eq_true hab) (of_decide_eq_true hbc))

theorem seqLe_total (a b : TaskAttempt) : seqLe a b || seqLe b a := by
  unfold seqLe
  rcases le_total a.querySequence b.querySequence with h | h <;> simp [h]

/-- C1: the successful-attempt extraction returns, for each `taskId` owning a
correct attempt, exactly the last correct attempt in log order; the result is
sorted ascending by `querySequence` and never holds two attempts with the
same `taskId`. -/
theorem getSuccessfulAttempts_spec (session : StudySession) :
    (∀ a : TaskAttempt, a ∈ getSuccessfulAttempts session ↔
      lastCorrectFor session.attempts a.taskId = some a) ∧
    (∀ tid : String,
      (∃ a ∈ session.attempts, a.isCorrect = true ∧ a.taskId = tid) ↔
        (∃ a ∈ getSuccessfulAttempts session, a.taskId = tid)) ∧
    ((getSuccessfulAttempts session).map (fun a => a.taskId)).Nodup ∧
    (getSuccessfulAttempts session).Pairwise
      (fun a b => a.querySequence ≤ b.querySequence) := by
  have hperm : List.Perm (getSuccessfulAttempts session)
      ((bestMap session.attempts).map Prod.snd) :=
    List.mergeSort_perm ((bestMap session.attempts).map Prod.snd) seqLe
  have hmem : ∀ a : TaskAttempt, a ∈ getSuccessfulAttempts session ↔
      lastCorrectFor session.attempts a.taskId = some a := by
    intro a
    rw [hperm.mem_iff]
    constructor
    · intro ha
      rcases List.mem_map.1 ha with ⟨⟨k, v⟩, hp, hv⟩
      have hk : v.taskId = k := bestMap_snd_taskId session.attempts (k, v) hp
      cases hv
      show lastCorrectFor session.attempts v.taskId = some v
      rw [hk]
      exact (mem_bestMap session.attempts _ _).1 hp
    · intro ha
      exact List.mem_map.2 ⟨(a.taskId, a),
        (mem_bestMap session.attempts a.taskId a).2 ha, rfl⟩
  refine ⟨hmem, ?_, ?_, ?_⟩
  · intro tid
    constructor
    · rintro ⟨a, ha, hcor, htid⟩
      have hfa : a ∈ session.attempts.filter
          (fun x => x.isCorrect && x.taskId == tid) :=
        List.mem_filter.2 ⟨ha, by simp [hcor, htid]⟩
      have hne := List.ne_nil_of_mem hfa
      have hsome : (session.attempts.filter
          (fun x => x.isCorrect && x.taskId == tid)).getLast?.isSome :=
        List.getLast?_isSome.2 hne
      rcases Option.isSome_iff_exists.1 hsome with ⟨w, hw⟩
      have hlast : lastCorrectFor session.attempts tid = some w := hw
      have hprops := lastCorrectFor_eq_some _ _ _ hlast
      refine ⟨w, ?_, hprops.2.2⟩
      rw [hmem w, hprops.2.2]
      exact hlast
    · rintro ⟨a, ha, htid⟩
      have hlast := (hmem a).1 ha
      have hprops := lastCorrectFor_eq_some _ _ _ hlast
      exact ⟨a, hprops.1, hprops.2.1, htid⟩
  · have hpm : List.Perm
        ((getSuccessfulAttempts session).map (fun a => a.taskId))
        (((bestMap session.attempts).map Prod.snd).map (fun a => a.taskId)) :=
      hperm.map _
    rw [List.Perm.nodup_iff hpm, List.map_map]
    have heq : (bestMap session.attempts).map ((fun a => a.taskId) ∘ Prod.snd) =
        (bestMap session.attempts).map Prod.fst :=
      List.map_congr_left (fun p hp => bestMap_snd_taskId session.attempts p hp)
    rw [heq]
    exact bestMap_keys_nodup session.attempts
  · have hs := @List.sorted_mergeSort TaskAttempt seqLe
      (fun a b c hab hbc => seqLe_trans a b c hab hbc)
      (fun a b => seqLe_total a b)
      ((bestMap session.attempts).map Prod.snd)
    refine List.Pairwise.imp ?_ hs
    intro a b hab
    exact of_decide_eq_true hab

-- C9 --------------------------------------------------------------------------

unseal List.merge List.mergeSort in
/-- C9: when the submitted result carries no error, the verdict and message
of the comparison never depend on the reference result error field — the
comparison proceeds as if the reference executed successfully; in particular
an empty error-free submitted result matches an errored reference with empty
columns and rows. -/
theorem compareResults_ignores_expected_error (s e : QueryResult) (po : Bool)
    (hs : s.error = none) (err : Option String) :
    ((compareResults s e po).isMatch =
      (compareResults s { e with error := err } po).isMatch) ∧
    ((compareResults s e po).message =
      (compareResults s { e with error := err } po).message) ∧
    ((compareResults ⟨[], [], none⟩ ⟨[], [], some ("execution failed")⟩ po).isMatch
      = true) := by
  refine ⟨?_, ?_, ?_⟩ <;>
    first
    | (cases po <;> decide)
    | (cases s with
       | mk scols svals serr =>
         cases e with
         | mk ecols evals eerr =>
           simp only at hs
           subst hs
           unfold compareResults
           simp only
           split_ifs <;>
             first
             | rfl
             | (split <;> rfl))

-- C5 --------------------------------------------------------------------------

theorem charCmp_eq_eq_iff (c d : Char) : charCmp c d = Ordering.eq ↔ c = d := by
  unfold charCmp
  rcases lt_trichotomy c d with h | h | h
  · simp [h, ne_of_lt h]
  · subst h
    simp [lt_irrefl]
  · simp [lt_asymm h, h, ne_of_gt h]

theorem charCmp_lt_iff (c d : Char) : charCmp c d = Ordering.lt ↔ c < d := by
  unfold charCmp
  rcases lt_trichotomy c d with h | h | h
  · simp [h]
  · subst h
    simp [lt_irrefl]
  · simp [lt_asymm h, h]

theorem charCmp_swap (c d : Char) : charCmp d c = (charCmp c d).swap := by
  unfold charCmp
  rcases lt_trichotomy c d with h | h | h
  · simp [h, lt_asymm h, Ordering.swap]
  · subst h
    simp [lt_irrefl, Ordering.swap]
  · simp [h, lt_asymm h, Ordering.swap]

theorem charListCmp_eq_eq_iff : ∀ (a b : List Char),
    charListCmp a b = Ordering.eq ↔ a = b
  | [], [] => by simp [charListCmp]
  | [], _ :: _ => by simp [charListCmp]
  | _ :: _, [] => by simp [charListCmp]
  | c :: cs, d :: ds => by
    cases h : charCmp c d with
    | eq =>
      have hcd : c = d := (charCmp_eq_eq_iff c d).1 h
      subst hcd
      have hself : charCmp c c = Ordering.eq := (charCmp_eq_eq_iff c c).2 rfl
      simp [charListCmp, hself, charListCmp_eq_eq_iff cs ds]
    | lt =>
      have hcd : c ≠ d := fun he => by
        rw [he] at h
        rw [(charCmp_eq_eq_iff d d).2 rfl] at h
        exact Ordering.noConfusion h
      simp [charListCmp, h, hcd]
    | gt =>
      have hcd : c ≠ d := fun he => by
        rw [he] at h
        rw [(charCmp_eq_eq_iff d d).2 rfl] at h
        exact Ordering.noConfusion h
      simp [charListCmp, h, hcd]

theorem charListCmp_swap : ∀ (a b : List Char),
    charListCmp b a = (charListCmp a b).swap
  | [], [] => by simp [charListCmp, Ordering.swap]
  | [], _ :: _ => by simp [charListCmp, Ordering.swap]
  | _ :: _, [] => by simp [charListCmp, Ordering.swap]
  | c :: cs, d :: ds => by
    simp only [charListCmp, charCmp_swap c d]
    cases h : charCmp c d with
    | eq => simpa [Ordering.swap] using charListCmp_swap cs ds
    | lt => simp [Ordering.swap]
    | gt => simp [Ordering.swap]

theorem charListCmp_lt_trans : ∀ (a b c : List Char),
    charListCmp a b = Ordering.lt → charListCmp b c = Ordering.lt →
      charListCmp a c = Ordering.lt
  | a, [], c => by
    intro h1 _
    cases a with
    | nil => exact absurd h1 (by simp [charListCmp])
    | cons x xs => exact absurd h1 (by simp [charListCmp])
  | a, _ :: _, [] => by
    intro _ h2
    exact absurd h2 (by simp [charListCmp])
  | [], y :: ys, z :: zs => by
    intro _ _
    simp [charListCmp]
  | x :: xs, y :: ys, z :: zs => by
    intro h1 h2
    simp only [charListCmp] at h1 h2 ⊢
    cases hxy : charCmp x y with
    | gt => rw [hxy] at h1; exact Ordering.noConfusion h1
    | lt =>
      cases hyz : charCmp y z with
      | gt => rw [hyz] at h2; exact Ordering.noConfusion h2
      | lt =>
        have hxz : charCmp x z = Ordering.lt :=
          (charCmp_lt_iff x z).2
            (lt_trans ((charCmp_lt_iff x y).1 hxy) ((charCmp_lt_iff y z).1 hyz))
        rw [hxz]
      | eq =>
        have hyz' : y = z := (charCmp_eq_eq_iff y z).1 hyz
        rw [← hyz', hxy]
    | eq =>
      have hxy' : x = y := (charCmp_eq_eq_iff x y).1 hxy
      rw [hxy] at h1
      cases hyz : charCmp y z with
      | gt => rw [hyz] at h2; exact Ordering.noConfusion h2
      | lt => rw [hxy', hyz]
      | eq =>
        rw [hyz] at h2
        rw [hxy', hyz]
        exact charListCmp_lt_trans xs ys zs h1 h2

theorem strCmp_eq_eq_iff (a b : String) : strCmp a b = Ordering.eq ↔ a = b := by
  unfold strCmp
  rw [charListCmp_eq_eq_iff]
  exact ⟨fun h => String.ext h, fun h => congrArg String.data h⟩

theorem strCmp_swap (a b : String) : strCmp b a = (strCmp a b).swap :=
  charListCmp_swap a.data b.data

theorem strCmp_lt_trans (a b c : String) (h1 : strCmp a b = Ordering.lt)
    (h2 : strCmp b c = Ordering.lt) : strCmp a c = Ordering.lt :=
  charListCmp_lt_trans a.data b.data c.data h1 h2

theorem charListCmp_nil_left_ne_gt (l : List Char) :
    charListCmp [] l ≠ Ordering.gt := by
  cases l <;> simp [charListCmp]

theorem charListCmp_nil_right_ne_lt (l : List Char) :
    charListCmp l [] ≠ Ordering.lt := by
  cases l <;> simp [charListCmp]

theorem strCmp_empty_left_ne_gt (s : String) : strCmp "" s ≠ Ordering.gt :=
  charListCmp_nil_left_ne_gt s.data

theorem strCmp_empty_right_ne_lt (s : String) : strCmp s "" ≠ Ordering.lt :=
  charListCmp_nil_right_ne_lt s.data

theorem rowCmpNil_ne_gt : ∀ b : List String, rowCmpNil b ≠ Ordering.gt
  | [] => by simp [rowCmpNil]
  | y :: ys => by
    simp only [rowCmpNil]
    cases h : strCmp "" y with
    | eq => exact rowCmpNil_ne_gt ys
    | lt => simp
    | gt => exact absurd h (strCmp_empty_left_ne_gt y)

theorem rowCmp_nil_right_swap : ∀ a : List String,
    rowCmp a [] = (rowCmpNil a).swap
  | [] => by simp [rowCmp, rowCmpNil, Ordering.swap]
  | x :: xs => by
    simp only [rowCmp, rowCmpNil]
    cases h : strCmp x "" with
    | eq =>
      have h2 : strCmp "" x = Ordering.eq := by rw [strCmp_swap x "", h]; rfl
      rw [h2]
      exact rowCmp_nil_right_swap xs
    | lt =>
      have h2 : strCmp "" x = Ordering.gt := by rw [strCmp_swap x "", h]; rfl
      rw [h2]
      rfl
    | gt =>
      have h2 : strCmp "" x = Ordering.lt := by rw [strCmp_swap x "", h]; rfl
      rw [h2]
      rfl

theorem rowCmp_swap : ∀ a b : List String, rowCmp b a = (rowCmp a b).swap
  | [], b => by
    show rowCmp b [] = (rowCmpNil b).swap
    exact rowCmp_nil_right_swap b
  | x :: xs, [] => by
    show rowCmpNil (x :: xs) = (rowCmp (x :: xs) []).swap
    rw [rowCmp_nil_right_swap, Ordering.swap_swap]
  | x :: xs, y :: ys => by
    simp only [rowCmp]
    cases h : strCmp x y with
    | eq =>
      have h2 : strCmp y x = Ordering.eq := by rw [strCmp_swap x y, h]; rfl
      rw [h2]
      exact rowCmp_swap xs ys
    | lt =>
      have h2 : strCmp y x = Ordering.gt := by rw [strCmp_swap x y, h]; rfl
      rw [h2]
      rfl
    | gt =>
      have h2 : strCmp y x = Ordering.lt := by rw [strCmp_swap x y, h]; rfl
      rw [h2]
      rfl

theorem rowCmp_eq_of_eq_length : ∀ a b : List String,
    rowCmp a b = Ordering.eq → a.length = b.length → a = b
  | [], [], _, _ => rfl
  | [], _ :: _, _, hl => by simp at hl
  | _ :: _, [], _, hl => by simp at hl
  | x :: xs, y :: ys, h, hl => by
    simp only [rowCmp] at h
    cases hxy : strCmp x y with
    | lt => rw [hxy] at h; exact Ordering.noConfusion h
    | gt => rw [hxy] at h; exact Ordering.noConfusion h
    | eq =>
      rw [hxy] at h
      have hx : x = y := (strCmp_eq_eq_iff x y).1 hxy
      have ht : xs = ys := rowCmp_eq_of_eq_length xs ys h (by simpa using hl)
      rw [hx, ht]

theorem rowCmp_all_empty : ∀ a : List String,
    rowCmp a [] ≠ Ordering.gt → ∀ c : List String, rowCmp a c ≠ Ordering.gt
  | [], _, c => by
    show rowCmpNil c ≠ Ordering.gt
    exact rowCmpNil_ne_gt c
  | x :: xs, h, c => by
    simp only [rowCmp] at h
    cases hx : strCmp x "" with
    | lt => exact absurd hx (strCmp_empty_right_ne_lt x)
    | gt => rw [hx] at h; exact absurd rfl h
    | eq =>
      rw [hx] at h
      have hxe : x = "" := (strCmp_eq_eq_iff x "").1 hx
      cases c with
      | nil =>
        simp only [rowCmp, hx]
        exact h
      | cons z zs =>
        simp only [rowCmp]
        cases hz : strCmp x z with
        | lt => simp
        | gt =>
          rw [hxe] at hz
          exact absurd hz (strCmp_empty_left_ne_gt z)
        | eq => exact rowCmp_all_empty xs h zs

theorem rowCmp_trans_ne_gt : ∀ a b c : List String,
    rowCmp a b ≠ Ordering.gt → rowCmp b c ≠ Ordering.gt →
      rowCmp a c ≠ Ordering.gt
  | [], _, c => fun _ _ => by
    show rowCmpNil c ≠ Ordering.gt
    exact rowCmpNil_ne_gt c
  | x :: xs, [], c => fun h1 _ => rowCmp_all_empty (x :: xs) h1 c
  | x :: xs, y :: ys, [] => fun h1 h2 => by
    simp only [rowCmp] at h1 h2 ⊢
    cases hy : strCmp y "" with
    | lt => exact absurd hy (strCmp_empty_right_ne_lt y)
    | gt => rw [hy] at h2; exact absurd rfl h2
    | eq =>
      rw [hy] at h2
      have hye : y = "" := (strCmp_eq_eq_iff y "").1 hy
      rw [hye] at h1
      cases hx : strCmp x "" with
      | lt => exact absurd hx (strCmp_empty_right_ne_lt x)
      | gt => rw [hx] at h1; exact absurd rfl h1
      | eq =>
        rw [hx] at h1
        exact rowCmp_trans_ne_gt xs ys [] h1 h2
  | x :: xs, y :: ys, z :: zs => fun h1 h2 => by
    simp only [rowCmp] at h1 h2 ⊢
    cases hxy : strCmp x y with
    | gt => rw [hxy] at h1; exact absurd rfl h1
    | lt =>
      cases hyz : strCmp y z with
      | gt => rw [hyz] at h2; exact absurd rfl h2
      | lt =>
        rw [strCmp_lt_trans x y z hxy hyz]
        simp
      | eq =>
        have hyz' : y = z := (strCmp_eq_eq_iff y z).1 hyz
        rw [← hyz', hxy]
        simp
    | eq =>
      rw [hxy] at h1
      have hxy' : x = y := (strCmp_eq_eq_iff x y).1 hxy
      cases hyz : strCmp y z with
      | gt => rw [hyz] at h2; exact absurd rfl h2
      | lt =>
        rw [hxy', hyz]
        simp
      | eq =>
        rw [hyz] at h2
        rw [hxy',  hyz]
        exact rowCmp_trans_ne_gt xs ys zs h1 h2

theorem rowLe_iff (a b : List String) :
    rowLe a b = true ↔ rowCmp a b ≠ Ordering.gt := by
  unfold rowLe
  cases h : rowCmp a b <;> decide

theorem rowLe_trans (a b c : List String) (h1 : rowLe a b = true)
    (h2 : rowLe b c = true) : rowLe a c = true :=
  (rowLe_iff a c).2
    (rowCmp_trans_ne_gt a b c ((rowLe_iff a b).1 h1) ((rowLe_iff b c).1 h2))

theorem rowLe_total (a b : List String) : rowLe a b || rowLe b a := by
  unfold rowLe
  rw [rowCmp_swap a b]
  cases h : rowCmp a b <;> decide

theorem rowLe_antisymm (a b : List String) (h1 : rowLe a b = true)
    (h2 : rowLe b a = true) (hl : a.length = b.length) : a = b := by
  have hg := (rowLe_iff a b).1 h1
  have hg' := (rowLe_iff b a).1 h2
  rw [rowCmp_swap a b] at hg'
  have heq : rowCmp a b = Ordering.eq := by
    rcases h : rowCmp a b with _ | _ | _
    · rw [h] at hg'
      exact absurd rfl hg'
    · rfl
    · rw [h] at hg
      exact absurd rfl hg
  exact rowCmp_eq_of_eq_length a b heq hl

theorem sorted_perm_eq {α : Type} (le : α → α → Bool) :
    ∀ (l₁ l₂ : List α), l₁.Pairwise (fun a b => le a b = true) →
      l₂.Pairwise (fun a b => le a b = true) → List.Perm l₁ l₂ →
      (∀ a ∈ l₁, ∀ b ∈ l₂, le a b = true → le b a = true → a = b) → l₁ = l₂
  | [], l₂, _, _, hp, _ => hp.nil_eq
  | a :: t₁, [], _, _, hp, _ => by
    have := hp.symm.nil_eq
    exact absurd this (by simp)
  | a :: t₁, b :: t₂, h₁, h₂, hp, hanti => by
    by_cases hab : a = b
    · subst hab
      have hp' := hp.cons_inv
      have ht : t₁ = t₂ :=
        sorted_perm_eq le t₁ t₂ (List.pairwise_cons.1 h₁).2
          (List.pairwise_cons.1 h₂).2 hp'
          (fun x hx y hy => hanti x (List.mem_cons_of_mem a hx)
            y (List.mem_cons_of_mem a hy))
      rw [ht]
    · exfalso
      have hamem : a ∈ b :: t₂ := hp.subset (List.mem_cons_self a t₁)
      have hat₂ : a ∈ t₂ := by
        rcases List.mem_cons.1 hamem with h | h
        · exact absurd h hab
        · exact h
      have hbmem : b ∈ a :: t₁ := hp.symm.subset (List.mem_cons_self b t₂)
      have hbt₁ : b ∈ t₁ := by
        rcases List.mem_cons.1 hbmem with h | h
        · exact absurd h.symm hab
        · exact h
      have hle1 : le a b = true := (List.pairwise_cons.1 h₁).1 b hbt₁
      have hle2 : le b a = true := (List.pairwise_cons.1 h₂).1 a hat₂
      exact hab (hanti a (List.mem_cons_self a t₁) b (List.mem_cons_self b t₂)
        hle1 hle2)

theorem mergeSort_eq_of_perm_rowLe (l₁ l₂ : List (List String)) (L : ℕ)
    (hp : List.Perm l₁ l₂) (hl₁ : ∀ r ∈ l₁, r.length = L) :
    l₁.mergeSort rowLe = l₂.mergeSort rowLe := by
  have hl₂ : ∀ r ∈ l₂, r.length = L := fun r hr => hl₁ r (hp.symm.subset hr)
  refine sorted_perm_eq rowLe _ _
    (@List.sorted_mergeSort (List String) rowLe rowLe_trans rowLe_total l₁)
    (@List.sorted_mergeSort (List String) rowLe rowLe_trans rowLe_total l₂)
    ((List.mergeSort_perm l₁ rowLe).trans
      (hp.trans (List.mergeSort_perm l₂ rowLe).symm))
    ?_
  intro a ha b hb hab hba
  have ha' : a ∈ l₁ := (List.mergeSort_perm l₁ rowLe).subset ha
  have hb' : b ∈ l₂ := (List.mergeSort_perm l₂ rowLe).subset hb
  exact rowLe_antisymm a b hab hba ((hl₁ a ha').trans (hl₂ b hb').symm)

theorem colIndex_self (cols : List String)
    (hnd : (cols.map normalizeColumnName).Nodup) (j : ℕ) (hj : j < cols.length) :
    colIndex cols (normalizeColumnName cols[j]) = some j := by
  unfold colIndex
  have hjmem : (j, cols[j]) ∈ cols.enum :=
    List.mk_mem_enum_iff_get?.2
      (by rw [List.get?_eq_getElem?, List.getElem?_eq_getElem hj])
  have hjfil : (j, cols[j]) ∈ cols.enum.filter
      (fun p => normalizeColumnName p.2 == normalizeColumnName cols[j]) :=
    List.mem_filter.2 ⟨hjmem, by simp⟩
  have hne := List.ne_nil_of_mem hjfil
  have hsome := List.getLast?_isSome.2 hne
  rcases Option.isSome_iff_exists.1 hsome with ⟨⟨i, c⟩, hp⟩
  rw [hp]
  rcases List.mem_filter.1 (List.mem_of_getLast?_eq_some hp) with
    ⟨hmem_enum, hpred⟩
  have hc : cols.get? i = some c := List.mk_mem_enum_iff_get?.1 hmem_enum
  obtain ⟨hi, hgi⟩ := List.get?_eq_some.1 hc
  have hci : c = cols[i] := by
    rw [← hgi]
    simp [List.get_eq_getElem]
  have hkey : normalizeColumnName cols[i] = normalizeColumnName cols[j] := by
    rw [← hci]
    simpa using hpred
  have hi2 : i < (cols.map normalizeColumnName).length := by simpa using hi
  have hj2 : j < (cols.map normalizeColumnName).length := by simpa using hj
  have hkey2 : (cols.map normalizeColumnName)[i] =
      (cols.map normalizeColumnName)[j] := by
    simpa using hkey
  have hij : i = j := hnd.getElem_inj_iff.1 hkey2
  simp [hij]

theorem reorderRow_id (cols : List String)
    (hnd : (cols.map normalizeColumnName).Nodup) (row : List SqlValue)
    (hrow : row.length = cols.length) :
    (cols.map (fun col => colIndex cols (normalizeColumnName col))).map
      (fun idx => match idx with
        | some i => (row.get? i).getD SqlValue.null
        | none => SqlValue.null) = row := by
  apply List.ext_getElem
  · simp [hrow]
  · intro i h1 h2
    have hic : i < cols.length := by simpa using h1
    simp only [List.getElem_map]
    rw [colIndex_self cols hnd i hic]
    simp only [List.get?_eq_getElem?, List.getElem?_eq_getElem h2,
      Option.getD_some]

theorem firstMismatch_none_iff : ∀ (i : ℕ) (as bs : List (List String)),
    as.length = bs.length → (firstMismatch i as bs = none ↔ as = bs)
  | _, [], [] => fun _ => by simp [firstMismatch]
  | _, [], _ :: _ => fun h => by simp at h
  | _, _ :: _, [] => fun h => by simp at h
  | i, a :: as, b :: bs => fun hlen => by
    simp only [firstMismatch]
    by_cases hab : a = b
    · subst hab
      rw [if_neg (by simp)]
      rw [firstMismatch_none_iff (i + 1) as bs (by simpa using hlen)]
      simp
    · rw [if_pos hab]
      simp [hab]

/-- The unordered comparison of two error-free results with identical
duplicate-free columns and permuted well-formed rows succeeds. -/
theorem compareResults_unordered_match (s e : QueryResult)
    (hse : s.error = none) (hee : e.error = none)
    (hcols : s.columns = e.columns)
    (hnd : (e.columns.map normalizeColumnName).Nodup)
    (hrows : ∀ r ∈ s.values, r.length = e.columns.length)
    (hperm : List.Perm s.values e.values) :
    compareResults s e false = ⟨true, s, e, "Correct!"⟩ := by
  cases s with
  | mk scols svals serr =>
    cases e with
    | mk ecols evals eerr =>
      simp only at hse hee hcols hrows hperm
      subst hse
      subst hee
      subst hcols
      unfold compareResults
      simp only
      rw [if_neg (by simp), if_neg (by simp [hperm.length_eq])]
      rw [if_neg (by simp)]
      have hre : svals.map (fun row =>
          (scols.map (fun col => colIndex scols (normalizeColumnName col))).map
            (fun idx => match idx with
              | some i => (row.get? i).getD SqlValue.null
              | none => SqlValue.null)) = svals := by
        have h0 := List.map_congr_left
          (fun r hr => reorderRow_id scols hnd r (hrows r hr))
        simpa using h0
      rw [hre]
      have hsort : sortRows svals = sortRows evals := by
        unfold sortRows
        refine mergeSort_eq_of_perm_rowLe _ _ scols.length (hperm.map _) ?_
        intro r hr
        rcases List.mem_map.1 hr with ⟨r0, hr0, hrn⟩
        rw [← hrn]
        unfold normalizeRow
        simpa using hrows r0 hr0
      rw [hsort]
      simp

/-- C5 (amended): for error-free results with equal, duplicate-free (after
normalization) column lists and equal multisets of well-formed rows, the
unordered comparison matches; with the order flag set and normalized row
sequences that actually differ it fails; and with the flag unset the verdict
is invariant under any permutation of the submitted rows. -/
theorem compareResults_order_sensitivity (s e : QueryResult)
    (hse : s.error = none) (hee : e.error = none)
    (hcols : s.columns = e.columns)
    (hnd : (e.columns.map normalizeColumnName).Nodup)
    (hrows : ∀ r ∈ s.values, r.length = e.columns.length)
    (hperm : List.Perm s.values e.values) :
    ((compareResults s e false).isMatch = true) ∧
    (s.values.map normalizeRow ≠ e.values.map normalizeRow →
      (compareResults s e true).isMatch = false) ∧
    (∀ values' : List (List SqlValue), List.Perm values' s.values →
      (compareResults { s with values := values' } e false).isMatch =
        (compareResults s e false).isMatch) := by
  refine ⟨?_, ?_, ?_⟩
  · rw [compareResults_unordered_match s e hse hee hcols hnd hrows hperm]
  · intro hneq
    cases s with
    | mk scols svals serr =>
      cases e with
      | mk ecols evals eerr =>
        simp only at hse hee hcols hrows hperm hneq
        subst hse
        subst hee
        subst hcols
        unfold compareResults
        simp only
        rw [if_neg (by simp), if_neg (by simp [hperm.length_eq])]
        rw [if_neg (by simp)]
        have hre : svals.map (fun row =>
            (scols.map (fun col => colIndex scols (normalizeColumnName col))).map
              (fun idx => match idx with
                | some i => (row.get? i).getD SqlValue.null
                | none => SqlValue.null)) = svals := by
          have h0 := List.map_congr_left
            (fun r hr => reorderRow_id scols hnd r (hrows r hr))
          simpa using h0
        rw [hre]
        have hiff := firstMismatch_none_iff 0 (svals.map normalizeRow)
          (evals.map normalizeRow) (by simp [hperm.length_eq])
        have hfm : firstMismatch 0 (svals.map normalizeRow)
            (evals.map normalizeRow) ≠ none :=
          fun hnone => hneq (hiff.1 hnone)
        cases hf : firstMismatch 0 (svals.map normalizeRow)
            (evals.map normalizeRow) with
        | none => exact absurd hf hfm
        | some i => rfl
  · intro values' hp'
    have h1 := compareResults_unordered_match s e hse hee hcols hnd hrows hperm
    have h2 := compareResults_unordered_match { s with values := values' } e
      hse hee hcols hnd
      (fun r hr => hrows r (hp'.subset hr))
      (hp'.trans hperm)
    rw [h1, h2]

unseal List.merge List.mergeSort in
/-- C5 counterexample: two error-free results with equal (duplicate) column
lists and equal row multisets in different order fail the unordered
comparison, because the name-to-index map keeps only the last index of a
duplicated column name and the reorder step duplicates that column's cells. -/
theorem compareResults_duplicate_columns_counterexample :
    dupColStudent.error = none ∧ dupColExpected.error = none ∧
    dupColStudent.columns = dupColExpected.columns ∧
    List.Perm dupColStudent.values dupColExpected.values ∧
    dupColStudent.values ≠ dupColExpected.values ∧
    (compareResults dupColStudent dupColExpected false).isMatch = false := by
  refine ⟨rfl, rfl, rfl, ?_, by decide, by decide⟩
  exact List.Perm.swap _ _ _

unseal List.merge List.mergeSort in
/-- Witness for the amended C5 on distinct columns: the permuted rows match
without the order flag and fail with it. -/
theorem compareResults_order_sensitivity_witness :
    (permStudent.error = none ∧ permExpected.error = none ∧
      permStudent.columns = permExpected.columns ∧
      (permExpected.columns.map normalizeColumnName).Nodup ∧
      (∀ r ∈ permStudent.values, r.length = permExpected.columns.length) ∧
      List.Perm permStudent.values permExpected.values) ∧
    (compareResults permStudent permExpected false).isMatch = true ∧
    (permStudent.values.map normalizeRow ≠ permExpected.values.map normalizeRow) ∧
    (compareResults permStudent permExpected true).isMatch = false := by
  have hp : List.Perm permStudent.values permExpected.values :=
    List.Perm.swap _ _ _
  refine ⟨⟨rfl, rfl, rfl, by decide, by decide, hp⟩, ?_, by decide, ?_⟩
  · exact (compareResults_order_sensitivity permStudent permExpected rfl rfl
      rfl (by decide) (by decide) hp).1
  · exact (compareResults_order_sensitivity permStudent permExpected rfl rfl
      rfl (by decide) (by decide) hp).2.1 (by decide)

-- C8 / C10 -------------------------------------------------------------------

theorem bestMap_all_incorrect (l : List TaskAttempt)
    (h : ∀ a ∈ l, a.isCorrect = false) : bestMap l = [] := by
  unfold bestMap
  induction l with
  | nil => rfl
  | cons a t ih =>
    rw [List.foldl_cons, if_neg (by simp [h a (List.mem_cons_self a t)])]
    exact ih (fun x hx => h x (List.mem_cons_of_mem a hx))

theorem getSuccessfulAttempts_all_incorrect (session : StudySession)
    (h : ∀ a ∈ session.attempts, a.isCorrect = false) :
    getSuccessfulAttempts session = [] := by
  unfold getSuccessfulAttempts
  rw [bestMap_all_incorrect session.attempts h]
  simp

theorem firstAttemptMap_aux (l : List TaskAttempt) :
    ∀ (m : List (String × Bool)), (∀ a ∈ l, a.isCorrect = false) →
      (∀ p ∈ m, p.2 = false) →
      ∀ p ∈ l.foldl (fun m a => assocSetIfAbsent m a.taskId a.isCorrect) m,
        p.2 = false := by
  induction l with
  | nil =>
    intro m _ hm
    simpa using hm
  | cons a t ih =>
    intro m hl hm
    rw [List.foldl_cons]
    refine ih _ (fun x hx => hl x (List.mem_cons_of_mem a hx)) ?_
    intro p hp
    unfold assocSetIfAbsent at hp
    by_cases hh : assocHas m a.taskId = true
    · rw [if_pos hh] at hp
      exact hm p hp
    · rw [if_neg hh] at hp
      rcases List.mem_append.1 hp with hp | hp
      · exact hm p hp
      · simp only [List.mem_singleton] at hp
        rw [hp]
        exact hl a (List.mem_cons_self a t)

theorem firstAttemptMap_all_false (l : List TaskAttempt)
    (h : ∀ a ∈ l, a.isCorrect = false) :
    ∀ p ∈ firstAttemptMap l, p.2 = false :=
  firstAttemptMap_aux l [] h (by simp)

theorem overallStats_no_success (attempts : List TaskAttempt)
    (h : ∀ a ∈ attempts, a.isCorrect = false) :
    (computeOverallStats [] attempts).completedTasks = 0 ∧
    (computeOverallStats [] attempts).avgTimeSec = 0 ∧
    (computeOverallStats [] attempts).avgAttempts = 0 ∧
    (computeOverallStats [] attempts).firstTrySuccessRate = 0 ∧
    (computeOverallStats [] attempts).improvementRatio = 1 := by
  have hfilter : ((firstAttemptMap attempts).map Prod.snd).filter id = [] := by
    rw [List.filter_eq_nil_iff]
    intro b hb
    rcases List.mem_map.1 hb with ⟨p, hp, hpb⟩
    rw [← hpb, firstAttemptMap_all_false attempts h p hp]
    simp
  unfold computeOverallStats
  simp only [List.map_nil, List.mergeSort_nil, List.length_nil, hfilter]
  norm_num [round2, round4, jsRound, median]

theorem analyzeSession_no_success (session : StudySession)
    (h : ∀ a ∈ session.attempts, a.isCorrect = false) :
    (analyzeSession session).learningCurve = none ∧
    (analyzeSession session).taskDifficulties = [] ∧
    (analyzeSession session).overallStats =
      computeOverallStats [] session.attempts := by
  have hs := getSuccessfulAttempts_all_incorrect session h
  unfold analyzeSession
  rw [hs]
  refine ⟨by simp, ?_, rfl⟩
  unfold computeTaskDifficulties
  simp

theorem filter_length_map {α β : Type} (F : α → β) (p : β → Bool) :
    ∀ l : List α,
      (l.filter (fun x => p (F x))).length = ((l.map F).filter p).length := by
  intro l
  induction l with
  | nil => rfl
  | cons a t ih =>
    simp only [List.filter_cons, List.map_cons]
    by_cases hpa : p (F a) = true
    · rw [if_pos hpa, if_pos hpa]
      simpa using ih
    · rw [if_neg hpa, if_neg hpa]
      exact ih

theorem scoreCompletion_no_success (fmt : NumberFormat)
    (analysis : AnalysisResult)
    (h0 : analysis.overallStats.completedTasks = 0) :
    (scoreCompletion fmt analysis defaultConfig).1.name = "Completion" ∧
    (scoreCompletion fmt analysis defaultConfig).1.rawScore = 0 ∧
    (scoreCompletion fmt analysis defaultConfig).1.weightedScore = 0 ∧
    ((scoreCompletion fmt analysis defaultConfig).2.map
      (fun f => (f.code, f.severity))) = [("INCOMPLETE", Severity.critical)] := by
  unfold scoreCompletion defaultConfig
  rw [h0]
  norm_num [jsRound, round2]

theorem scoreLearningCurve_insufficient (fmt : NumberFormat)
    (analysis : AnalysisResult) (hlc : analysis.learningCurve = none) :
    (scoreLearningCurve fmt analysis defaultConfig).1.name = "Learning Curve" ∧
    (scoreLearningCurve fmt analysis defaultConfig).1.rawScore = 0 ∧
    (scoreLearningCurve fmt analysis defaultConfig).1.weightedScore = 0 ∧
    ((scoreLearningCurve fmt analysis defaultConfig).2.map
      (fun f => (f.code, f.severity))) =
      [("INSUFFICIENT_DATA_FOR_LC", Severity.warning)] := by
  unfold scoreLearningCurve
  rw [hlc]
  exact ⟨rfl, rfl, rfl, rfl⟩

theorem scoreEfficiency_no_success (fmt : NumberFormat)
    (analysis : AnalysisResult)
    (hr : analysis.overallStats.firstTrySuccessRate = 0)
    (ha : analysis.overallStats.avgAttempts = 0) :
    (scoreEfficiency fmt analysis defaultConfig).1.name = "Efficiency" ∧
    (scoreEfficiency fmt analysis defaultConfig).1.rawScore = 50 ∧
    (scoreEfficiency fmt analysis defaultConfig).1.weightedScore = 10 ∧
    (scoreEfficiency fmt analysis defaultConfig).2 = [] := by
  simp only [scoreEfficiency]
  rw [hr, ha]
  norm_num [jsRound, round2]

theorem scoreImprovement_neutral (fmt : NumberFormat)
    (analysis : AnalysisResult)
    (hi : analysis.overallStats.improvementRatio = 1) :
    (scoreImprovement fmt analysis defaultConfig).1.name = "Improvement Trend" ∧
    (scoreImprovement fmt analysis defaultConfig).1.rawScore = 50 ∧
    (scoreImprovement fmt analysis defaultConfig).1.weightedScore = 15 / 2 ∧
    (scoreImprovement fmt analysis defaultConfig).2 = [] := by
  simp only [scoreImprovement]
  rw [hi]
  norm_num [jsRound, round2]

theorem scoreTimePerformance_no_success (fmt : NumberFormat)
    (analysis : AnalysisResult)
    (htd : analysis.taskDifficulties = [])
    (hav : analysis.overallStats.avgTimeSec = 0) :
    (scoreTimePerformance fmt analysis defaultConfig).1.name =
      "Time Performance" ∧
    (scoreTimePerformance fmt analysis defaultConfig).1.rawScore = 20 ∧
    (scoreTimePerformance fmt analysis defaultConfig).1.weightedScore = 4 ∧
    ((scoreTimePerformance fmt analysis defaultConfig).2.map
      (fun f => (f.code, f.severity))) =
      [("AVG_TIME_TOO_LOW", Severity.critical)] := by
  simp only [scoreTimePerformance]
  rw [htd, hav]
  norm_num [jsRound, round2]

theorem buildSummary_review (ts : ℤ) (c0 : CriterionResult)
    (rest : List CriterionResult) (flags : List GradingFlag)
    (hne : (flags.filter (fun f => f.severity == Severity.critical)).length ≠ 0) :
    ∃ b c, buildSummary ts (c0 :: rest) flags =
      b ++ (" REVIEW NEEDED: " ++ c) := by
  unfold buildSummary
  simp only
  rw [if_pos hne]
  exact ⟨_, _, rfl⟩

theorem gradeSession_no_success_core (fmt : NumberFormat)
    (analysis : AnalysisResult)
    (hlc : analysis.learningCurve = none)
    (htd : analysis.taskDifficulties = [])
    (h0 : analysis.overallStats.completedTasks = 0)
    (hav : analysis.overallStats.avgTimeSec = 0)
    (hr : analysis.overallStats.firstTrySuccessRate = 0)
    (ha : analysis.overallStats.avgAttempts = 0)
    (hi : analysis.overallStats.improvementRatio = 1) :
    ((gradeSession fmt analysis defaultConfig).criteria.map
      (fun c => (c.name, c.rawScore)) =
      [("Completion", 0), ("Learning Curve", 0), ("Efficiency", 50),
        ("Improvement Trend", 50), ("Time Performance", 20)]) ∧
    ((gradeSession fmt analysis defaultConfig).flags.map
      (fun f => (f.code, f.severity)) =
      [("INCOMPLETE", Severity.critical),
        ("INSUFFICIENT_DATA_FOR_LC", Severity.warning),
        ("AVG_TIME_TOO_LOW", Severity.critical)]) ∧
    ((gradeSession fmt analysis defaultConfig).letterGrade = "F") ∧
    (∃ b c, (gradeSession fmt analysis defaultConfig).summary =
      b ++ (" REVIEW NEEDED: " ++ c)) := by
  obtain ⟨n1, r1, w1, f1⟩ := scoreCompletion_no_success fmt analysis h0
  obtain ⟨n2, r2, w2, f2⟩ := scoreLearningCurve_insufficient fmt analysis hlc
  obtain ⟨n3, r3, w3, f3⟩ := scoreEfficiency_no_success fmt analysis hr ha
  obtain ⟨n4, r4, w4, f4⟩ := scoreImprovement_neutral fmt analysis hi
  obtain ⟨n5, r5, w5, f5⟩ := scoreTimePerformance_no_success fmt analysis htd hav
  have hflags : (gradeSession fmt analysis defaultConfig).flags.map
      (fun f => (f.code, f.severity)) =
      [("INCOMPLETE", Severity.critical),
        ("INSUFFICIENT_DATA_FOR_LC", Severity.warning),
        ("AVG_TIME_TOO_LOW", Severity.critical)] := by
    simp only [gradeSession]
    rw [List.map_append, List.map_append, List.map_append, List.map_append]
    rw [f1, f2, f3, f4, f5]
    rfl
  have hcrit : ((gradeSession fmt analysis defaultConfig).flags.filter
      (fun f => f.severity == Severity.critical)).length = 2 := by
    have hb : ((gradeSession fmt analysis defaultConfig).flags.filter
        (fun f => f.severity == Severity.critical)).length =
        (((gradeSession fmt analysis defaultConfig).flags.map
          (fun f => (f.code, f.severity))).filter
          (fun q => q.2 == Severity.critical)).length :=
      filter_length_map (fun f : GradingFlag => (f.code, f.severity))
        (fun q : String × Severity => q.2 == Severity.critical) _
    rw [hb, hflags]
    rfl
  have htotal : (gradeSession fmt analysis defaultConfig).criteria.map
      (fun c => c.weightedScore) = [0, 0, 10, 15 / 2, 4] := by
    simp only [gradeSession]
    rw [List.map_cons, List.map_cons, List.map_cons, List.map_cons,
      List.map_cons, List.map_nil, w1, w2, w3, w4, w5]
  refine ⟨?_, hflags, ?_, ?_⟩
  · simp only [gradeSession]
    rw [List.map_cons, List.map_cons, List.map_cons, List.map_cons,
      List.map_cons, List.map_nil, n1, r1, n2, r2, n3, r3, n4, r4, n5, r5]
  · simp only [gradeSession] at htotal ⊢
    rw [List.map_cons, List.map_cons, List.map_cons, List.map_cons,
      List.map_cons, List.map_nil, w1, w2, w3, w4, w5]
    norm_num [jsRound, toLetterGrade]
  · simp only [gradeSession] at hcrit ⊢
    exact buildSummary_review _ _ _ _ (by rw [hcrit]; norm_num)

/-- C8: grading a session with zero attempts gives Completion raw score 0,
Learning Curve raw score 0 with the `INSUFFICIENT_DATA_FOR_LC` flag exactly
once, and letter grade F (the other raw scores are 50, 50 and 20). -/
theorem gradeSession_empty_session (fmt : NumberFormat) :
    ((gradeSession fmt (analyzeSession emptySession) defaultConfig).criteria.map
      (fun c => (c.name, c.rawScore)) =
      [("Completion", 0), ("Learning Curve", 0), ("Efficiency", 50),
        ("Improvement Trend", 50), ("Time Performance", 20)]) ∧
    (((gradeSession fmt (analyzeSession emptySession) defaultConfig).flags.filter
      (fun f => f.code == "INSUFFICIENT_DATA_FOR_LC")).length = 1) ∧
    ((gradeSession fmt (analyzeSession emptySession) defaultConfig).letterGrade
      = "F") := by
  have h : ∀ a ∈ emptySession.attempts, a.isCorrect = false := by
    intro a ha
    exact absurd ha (List.not_mem_nil a)
  obtain ⟨hlc, htd, hstats⟩ := analyzeSession_no_success emptySession h
  obtain ⟨h0, hav, ha', hr, hi⟩ := overallStats_no_success emptySession.attempts h
  have core := gradeSession_no_success_core fmt (analyzeSession emptySession)
    hlc htd (by rw [hstats]; exact h0) (by rw [hstats]; exact hav)
    (by rw [hstats]; exact hr) (by rw [hstats]; exact ha')
    (by rw [hstats]; exact hi)
  refine ⟨core.1, ?_, core.2.2.1⟩
  have hb : (((gradeSession fmt (analyzeSession emptySession)
      defaultConfig).flags).filter
        (fun f => f.code == "INSUFFICIENT_DATA_FOR_LC")).length =
      ((((gradeSession fmt (analyzeSession emptySession)
        defaultConfig).flags).map (fun f => (f.code, f.severity))).filter
        (fun q => q.1 == "INSUFFICIENT_DATA_FOR_LC")).length :=
    filter_length_map (fun f : GradingFlag => (f.code, f.severity))
      (fun q : String × Severity => q.1 == "INSUFFICIENT_DATA_FOR_LC") _
  rw [hb, core.2.1]
  rfl

/-- C10: for every session with no successful attempt the average time
computes to 0, so grading raises the critical `AVG_TIME_TOO_LOW` flag, the
Time Performance criterion's raw score is capped at 20, and the summary text
carries a REVIEW NEEDED clause. -/
theorem gradeSession_no_successful_attempts (fmt : NumberFormat)
    (session : StudySession)
    (h : ∀ a ∈ session.attempts, a.isCorrect = false) :
    ((analyzeSession session).overallStats.avgTimeSec = 0) ∧
    (∃ f ∈ (gradeSession fmt (analyzeSession session) defaultConfig).flags,
      f.code = "AVG_TIME_TOO_LOW" ∧ f.severity = Severity.critical) ∧
    (∃ cr ∈ (gradeSession fmt (analyzeSession session) defaultConfig).criteria,
      cr.name = "Time Performance" ∧ cr.rawScore ≤ 20) ∧
    (∃ b c, (gradeSession fmt (analyzeSession session) defaultConfig).summary =
      b ++ (" REVIEW NEEDED: " ++ c)) := by
  obtain ⟨hlc, htd, hstats⟩ := analyzeSession_no_success session h
  obtain ⟨h0, hav, ha', hr, hi⟩ := overallStats_no_success session.attempts h
  have havg : (analyzeSession session).overallStats.avgTimeSec = 0 := by
    rw [hstats]
    exact hav
  have core := gradeSession_no_success_core fmt (analyzeSession session)
    hlc htd (by rw [hstats]; exact h0) havg
    (by rw [hstats]; exact hr) (by rw [hstats]; exact ha')
    (by rw [hstats]; exact hi)
  refine ⟨havg, ?_, ?_, core.2.2.2⟩
  · have hmem : (("AVG_TIME_TOO_LOW", Severity.critical) : String × Severity) ∈
        (gradeSession fmt (analyzeSession session) defaultConfig).flags.map
          (fun f => (f.code, f.severity)) := by
      rw [core.2.1]
      simp
    rcases List.mem_map.1 hmem with ⟨f, hf, hFf⟩
    exact ⟨f, hf, congrArg Prod.fst hFf, congrArg Prod.snd hFf⟩
  · have hmem : (("Time Performance", (20 : ℤ)) : String × ℤ) ∈
        (gradeSession fmt (analyzeSession session) defaultConfig).criteria.map
          (fun c => (c.name, c.rawScore)) := by
      rw [core.1]
      simp
    rcases List.mem_map.1 hmem with ⟨cr, hcr, hFcr⟩
    refine ⟨cr, hcr, congrArg Prod.fst hFcr, ?_⟩
    have : cr.rawScore = 20 := congrArg Prod.snd hFcr
    rw [this]

/-- Witness for C10 at the empty session with a trivial number format. -/
theorem gradeSession_no_successful_attempts_witness :
    (∀ a ∈ emptySession.attempts, a.isCorrect = false) ∧
    ((analyzeSession emptySession).overallStats.avgTimeSec = 0) ∧
    (∃ f ∈ (gradeSession trivialFormat (analyzeSession emptySession)
        defaultConfig).flags,
      f.code = "AVG_TIME_TOO_LOW" ∧ f.severity = Severity.critical) := by
  have h : ∀ a ∈ emptySession.attempts, a.isCorrect = false := by
    intro a ha
    exact absurd ha (List.not_mem_nil a)
  have main := gradeSession_no_successful_attempts trivialFormat emptySession h
  exact ⟨h, main.1, main.2.1⟩

/-- Witness for C9 at a concrete error-free submitted result. -/
theorem compareResults_ignores_expected_error_witness :
    permStudent.error = none ∧
    ((compareResults permStudent permExpected false).isMatch =
      (compareResults permStudent
        { permExpected with error := some ("boom") } false).isMatch) :=
  ⟨rfl, (compareResults_ignores_expected_error permStudent permExpected false
    rfl (some ("boom"))).1⟩

end SqlTimeStudy
